import Mathlib

/-!
Verification development for the consolidation backend
(`backend/routes/structure_data.py`, `upload_data.py`, `forex.py`,
`financial_year_master.py`).

The Python code is shallowly embedded: rows from the `final_structured`
table become the `FinalRow` structure, SQL tables become lists of records,
SQL `UPDATE`/`DELETE` statements become list transformations, nullable
columns become `Option`, decimal/float amounts become `ℚ`, and dates become
a year/month/day structure ordered lexicographically.
-/

namespace Consolidation

/-! ## String helpers

Models of the Python string operations used throughout the code base:
`needle in hay` (substring test), `.strip()/.lower()/.upper()`, and the SQL
`LOWER(TRIM(...))` normalization.
-/

/-- `chPrefixOf n h` is true when `n` is a prefix of `h` (character lists). -/
def chPrefixOf : List Char → List Char → Bool
  | [], _ => true
  | _ :: _, [] => false
  | a :: as, b :: bs => a == b && chPrefixOf as bs

/-- `chHasSub n h`: `n` occurs as a contiguous substring of `h`. -/
def chHasSub (needle : List Char) : List Char → Bool
  | [] => needle.isEmpty
  | c :: rest => chPrefixOf needle (c :: rest) || chHasSub needle rest

/-- Python `needle in hay` for strings. -/
def strContains (hay needle : String) : Bool :=
  chHasSub needle.toList hay.toList

/-- Leading and trailing whitespace removed (Python `.strip()`, SQL
`TRIM`). -/
def chTrim (l : List Char) : List Char :=
  ((l.dropWhile Char.isWhitespace).reverse.dropWhile Char.isWhitespace).reverse

/-- Python `s.strip()` / SQL `TRIM(s)`. -/
def strTrim (s : String) : String := String.mk (chTrim s.toList)

/-- Python `s.lower()` / SQL `LOWER(s)`. -/
def strLower (s : String) : String := String.mk (s.toList.map Char.toLower)

/-- Python `s.upper()` / SQL `UPPER(s)`. -/
def strUpper (s : String) : String := String.mk (s.toList.map Char.toUpper)

/-- Python `s.endswith(t)`. -/
def strEndsWith (s t : String) : Bool :=
  chPrefixOf t.toList.reverse s.toList.reverse

/-- SQL `LOWER(TRIM(s))` / Python `s.strip().lower()`. -/
def normKey (s : String) : String := strLower (strTrim s)

/-- Python `(x or "")` for a nullable string column. -/
def optS (s : Option String) : String := s.getD ""

/-- SQL `col IS NULL OR TRIM(col) = ''`: the column is null or blank. -/
def blankO (s : Option String) : Bool :=
  match s with
  | none => true
  | some v => strTrim v == ""

/-- The column holds a non-null, non-blank value. -/
def nonblankO (s : Option String) : Bool := !(blankO s)

/-! ## Python/SQL value helpers -/

/-- Python `a or b` on nullable floats (`0.0` and `None` are falsy). -/
def pyOrQ (a b : Option ℚ) : Option ℚ :=
  match a with
  | some x => if x = 0 then b else some x
  | none => b

/-- Python truthiness of a nullable integer (`0` and `None` are falsy). -/
def truthyZ (a : Option ℤ) : Option ℤ :=
  match a with
  | some x => if x = 0 then none else some x
  | none => none

/-- Python `(s or None)`: an empty string collapses to `None`. -/
def pyOrNoneS (s : Option String) : Option String :=
  match s with
  | some v => if v == "" then none else some v
  | none => none

/-- SQL `a = b` on two nullable integer columns (`NULL` never matches). -/
def sqlEqZ (a b : Option ℤ) : Bool :=
  match a, b with
  | some x, some y => x == y
  | _, _ => false

/-! ## Data model -/

/-- One row of the `final_structured` table (a `DerivedLedgerRow`).
`entity_id` carries the value of `row.get("entity_id")` after the optional
`entity_master` resolution from `entityCode` done inline by the Python
helpers; `financial_year` carries the ending year parsed by
`parse_financial_year` from the "YYYY-YY" string column when present. -/
structure FinalRow where
  sl_no : ℤ
  Particular : String
  entityCode : String
  selectedMonth : String
  Month : String
  Year : Option ℤ
  mainCategory : Option String
  category1 : Option String
  category2 : Option String
  category3 : Option String
  category4 : Option String
  category5 : Option String
  localCurrencyCode : String
  transactionAmount : Option ℚ
  Avg_Fx_Rt : Option ℚ
  transactionAmountUSD : Option ℚ
  entity_id : Option ℤ
  financial_year : Option ℤ
  deriving DecidableEq, Repr

/-- One row of `entity_forex_rates`. `financial_year` is the ending year the
stored label denotes: `get_entity_fy_forex_rate` matches both the "2024-25"
and the plain "2024" spellings, which both denote ending year 2024. -/
structure EntityFxRate where
  entity_id : ℤ
  currency : String
  financial_year : ℤ
  opening_rate : Option ℚ
  closing_rate : Option ℚ
  deriving DecidableEq, Repr

/-- One row of the legacy `forex_master` table. `updated_at` is a timestamp
measured as an offset from 1900-01-01, so SQL
`COALESCE(updated_at, '1900-01-01')` becomes `Option.getD · 0`. -/
structure FxMasterRow where
  fx_id : ℤ
  currency : String
  initial_rate : Option ℚ
  latest_rate : Option ℚ
  updated_at : Option ℤ
  deriving DecidableEq, Repr

/-- A value of the forex cache dict built by `_build_forex_cache`. -/
structure FxCacheEntry where
  opening_rate : Option ℚ
  closing_rate : Option ℚ
  initial_rate : Option ℚ
  latest_rate : Option ℚ
  deriving DecidableEq, Repr

/-- Keys of the forex cache: the Python code uses the strings
`"{entity_id}_{curr}_{fy}"` and `"legacy_{curr}"`; they are modelled as a
structured key (the string encodings of distinct structured keys are
distinct for numeric ids/years and underscore-free currency codes). -/
inductive CacheKey where
  | entity (e : ℤ) (c : String) (fy : ℤ)
  | legacy (c : String)
  deriving DecidableEq, Repr

instance : BEq CacheKey := ⟨fun a b => decide (a = b)⟩

instance : LawfulBEq CacheKey where
  eq_of_beq := fun h => of_decide_eq_true h
  rfl := decide_eq_true rfl

/-- The forex cache dict, as an association list. All writes to a given key
carry the same value (lookups are deterministic), so a first-match read
agrees with the Python dict. -/
abbrev ForexCache := List (CacheKey × FxCacheEntry)

/-- Dict read `forex_cache.get(k)`. -/
def cacheGet (cache : ForexCache) (k : CacheKey) : Option FxCacheEntry :=
  (cache.find? (fun e => e.1 == k)).map (·.2)

/-! ## FX rate stores: `forex.py` -/

/-- `get_entity_fy_forex_rate(entity_id, currency, financial_year)`:
first `entity_forex_rates` row for the triple (`LIMIT 1`); the currency is
uppercased before matching. -/
def getEntityFyForexRate (edb : List EntityFxRate) (e : ℤ) (c : String)
    (fy : ℤ) : Option EntityFxRate :=
  edb.find? (fun r => r.entity_id == e && r.currency == strUpper c
    && r.financial_year == fy)

/-- `COALESCE(updated_at, '1900-01-01')` followed by the `fx_id` tiebreak:
the sort key of `_get_latest_row_for_currency`. -/
def fxSortKey (r : FxMasterRow) : ℤ × ℤ := (r.updated_at.getD 0, r.fx_id)

/-- Strict lexicographic order on the `(timestamp, fx_id)` sort key. -/
def keyLt (a b : ℤ × ℤ) : Bool := a.1 < b.1 || (a.1 == b.1 && a.2 < b.2)

/-- `_get_latest_row_for_currency(code)`: among the rows with this exact
currency code, the one that sorts first under
`ORDER BY COALESCE(updated_at,'1900-01-01') DESC, fx_id DESC`. -/
def getLatestRowForCurrency (ldb : List FxMasterRow) (code : String) :
    Option FxMasterRow :=
  (ldb.filter (fun r => r.currency == code)).foldl
    (fun best r =>
      match best with
      | none => some r
      | some b => if keyLt (fxSortKey b) (fxSortKey r) then some r else some b)
    none

/-! ## Forex cache construction: `_build_forex_cache` -/

/-- The fiscal year the apply/calc helpers use for a row: the parsed
`financial_year` column when truthy, else the `Year` column (Python
`if not financial_year: financial_year = row.get("Year")`). -/
def rowFY (r : FinalRow) : Option ℤ :=
  match truthyZ r.financial_year with
  | some fy => some fy
  | none => truthyZ r.Year

/-- The `(entity_id, currency, financial_year)` triple the cache builder
collects from one row (lines 26-55): the currency must be non-blank and
both the entity id and fiscal year truthy. -/
def rowTriple (r : FinalRow) : Option (ℤ × String × ℤ) :=
  let curr := strTrim r.localCurrencyCode
  if curr == "" then none
  else
    match truthyZ r.entity_id, rowFY r with
    | some e, some fy => some (e, strUpper curr, fy)
    | _, _ => none

/-- The Python set `entity_currency_fy` (insertion-ordered, deduplicated). -/
def batchTriples (rows : List FinalRow) : List (ℤ × String × ℤ) :=
  (rows.filterMap rowTriple).eraseDups

/-- The Python set `currencies`: every non-blank row currency, uppercased. -/
def batchCurrencies (rows : List FinalRow) : List String :=
  (rows.filterMap (fun r =>
    let curr := strTrim r.localCurrencyCode
    if curr == "" then none else some (strUpper curr))).eraseDups

/-- Lines 62-88 of `_build_forex_cache`: look the triple up for the exact
fiscal year, then retry with `fy + 1`, then with `fy - 1`; the first lookup
that returns a row fixes the cache key's year and the rates used. -/
def resolveEntityFyRates (edb : List EntityFxRate) (e : ℤ) (c : String)
    (fy : ℤ) : Option (ℤ × EntityFxRate) :=
  match getEntityFyForexRate edb e c fy with
  | some r => some (fy, r)
  | none =>
    match getEntityFyForexRate edb e c (fy + 1) with
    | some r => some (fy + 1, r)
    | none =>
      match getEntityFyForexRate edb e c (fy - 1) with
      | some r => some (fy - 1, r)
      | none => none

/-- The cache value built from an `entity_forex_rates` row (lines 91-100):
`initial_rate`/`latest_rate` are mirrored for backward compatibility. -/
def entityEntryValue (r : EntityFxRate) : FxCacheEntry :=
  { opening_rate := r.opening_rate, closing_rate := r.closing_rate,
    initial_rate := r.opening_rate, latest_rate := r.closing_rate }

/-- The cache entry one triple contributes, keyed with the resolved year. -/
def entityCacheEntry (edb : List EntityFxRate) (t : ℤ × String × ℤ) :
    Option (CacheKey × FxCacheEntry) :=
  match resolveEntityFyRates edb t.1 t.2.1 t.2.2 with
  | some (fy, r) => some (CacheKey.entity t.1 t.2.1 fy, entityEntryValue r)
  | none => none

/-- The `found_entity_rates` set: uppercased currencies of the triples for
which an entity-specific rate was resolved (note: keyed by currency alone,
not by entity). -/
def foundEntityRateCurrencies (edb : List EntityFxRate)
    (rows : List FinalRow) : List String :=
  (batchTriples rows).filterMap (fun t =>
    if (resolveEntityFyRates edb t.1 t.2.1 t.2.2).isSome
    then some (strUpper t.2.1) else none)

/-- Lines 112-116: the legacy currency-code variants tried for a currency,
in order: the code as-is, the code with "IN" appended when it has three
letters, then "USDIN", then "USD". -/
def legacyVariants (curr : String) : List String :=
  [curr] ++ (if curr.length == 3 then [curr ++ "IN"] else [])
    ++ ["USDIN", "USD"]

/-- The Python loop over the variants with its `seen` set: the first code
not yet tried for which a legacy row exists wins. -/
def firstLegacyHitLoop (ldb : List FxMasterRow) (seen : List String) :
    List String → Option (String × FxMasterRow)
  | [] => none
  | c :: rest =>
    if seen.contains c then firstLegacyHitLoop ldb seen rest
    else
      match getLatestRowForCurrency ldb c with
      | some r => some (c, r)
      | none => firstLegacyHitLoop ldb (c :: seen) rest

/-- Lines 118-136: the legacy cache value for a currency with no
entity-specific rate, mapping `initial`→`opening` and `latest`→`closing`. -/
def buildLegacyEntry (ldb : List FxMasterRow) (curr : String) :
    Option FxCacheEntry :=
  match firstLegacyHitLoop ldb [] (legacyVariants curr) with
  | some (_, r) =>
    some { opening_rate := r.initial_rate, closing_rate := r.latest_rate,
           initial_rate := r.initial_rate, latest_rate := r.latest_rate }
  | none => none

/-- `_build_forex_cache(rows)`: entity-specific entries for every collected
triple, then legacy entries only for currencies with no entity-specific
rate anywhere in the batch. -/
def buildForexCache (edb : List EntityFxRate) (ldb : List FxMasterRow)
    (rows : List FinalRow) : ForexCache :=
  let entityEntries := (batchTriples rows).filterMap (entityCacheEntry edb)
  let needFallback := (batchCurrencies rows).filter
    (fun c => !(foundEntityRateCurrencies edb rows).contains c)
  let legacyEntries := needFallback.filterMap (fun c =>
    (buildLegacyEntry ldb c).map (fun v => (CacheKey.legacy c, v)))
  entityEntries ++ legacyEntries

/-! ## Rate selection and application -/

/-- The P&L text marks checked by substring (`_apply_forex_rates` lines
223-230 and `_calculate_and_save_forex_rates` lines 359-366). -/
def plMarks (s : String) : Bool :=
  strContains s "profit and loss" || strContains s "profit & loss"
    || strContains s "p&l"

/-- `is_pl`: the row counts as Profit-and-Loss when either its `category1`
or its `mainCategory`, stripped and lowercased, contains a P&L mark. -/
def rowIsPL (r : FinalRow) : Bool :=
  plMarks (normKey (optS r.category1)) || plMarks (normKey (optS r.mainCategory))

/-- Lines 232-253 (and identically 368-391): the effective rate. The
`opening_rate or initial_rate` / `closing_rate or latest_rate` fallthrough
uses Python `or`; if P&L the rate is the average when both rates are
present, else the closing rate alone; otherwise (Balance Sheet and anything
else) the closing rate alone; with no usable rate the row is skipped. -/
def computeFxRate (is_pl : Bool) (fx : FxCacheEntry) : Option ℚ :=
  let opening := pyOrQ fx.opening_rate fx.initial_rate
  let closing := pyOrQ fx.closing_rate fx.latest_rate
  if is_pl then
    match opening, closing with
    | some o, some c => some ((o + c) / 2)
    | none, some c => some c
    | _, none => none
  else
    match closing with
    | some c => some c
    | none => none

/-- Cache lookup for one row (lines 160-211 of `_apply_forex_rates`, same
in `_calculate_and_save_forex_rates`): entity+FY keys for the exact year,
then year+1, then year-1, then the legacy key for the bare currency. The
trailing `forex_cache.get(curr)` read uses a bare-currency key the builder
never writes, so it is omitted. -/
def lookupRowFx (cache : ForexCache) (r : FinalRow) : Option FxCacheEntry :=
  let curr := strUpper (strTrim r.localCurrencyCode)
  let viaEntity :=
    match truthyZ r.entity_id, rowFY r with
    | some e, some fy =>
      match cacheGet cache (CacheKey.entity e curr fy) with
      | some fx => some fx
      | none =>
        match cacheGet cache (CacheKey.entity e curr (fy + 1)) with
        | some fx => some fx
        | none => cacheGet cache (CacheKey.entity e curr (fy - 1))
    | _, _ => none
  match viaEntity with
  | some fx => some fx
  | none => cacheGet cache (CacheKey.legacy curr)

/-- One row of `_apply_forex_rates` (in-memory enrichment): rows without a
non-blank `mainCategory` are skipped; with a resolved rate, `Avg_Fx_Rt` is
set and, when `transactionAmount` is present, so is `transactionAmountUSD`. -/
def applyForexRow (cache : ForexCache) (r : FinalRow) : FinalRow :=
  if blankO r.mainCategory then r
  else
    match lookupRowFx cache r with
    | none => r
    | some fx =>
      match computeFxRate (rowIsPL r) fx with
      | none => r
      | some rate =>
        match r.transactionAmount with
        | some amt =>
          { r with Avg_Fx_Rt := some rate,
                   transactionAmountUSD := some (amt * rate) }
        | none => { r with Avg_Fx_Rt := some rate }

/-- `_apply_forex_rates(rows, forex_cache)` over a whole batch. -/
def applyForexRates (cache : ForexCache) (rows : List FinalRow) :
    List FinalRow :=
  rows.map (applyForexRow cache)

/-- One row of `_calculate_and_save_forex_rates` as it lands in the
database: same skip/lookup/rate logic; the saved `transactionAmountUSD` is
the computed value, which is `NULL` when `transactionAmount` is absent. -/
def calcForexRow (cache : ForexCache) (r : FinalRow) : FinalRow :=
  if blankO r.mainCategory then r
  else
    match lookupRowFx cache r with
    | none => r
    | some fx =>
      match computeFxRate (rowIsPL r) fx with
      | none => r
      | some rate =>
        { r with Avg_Fx_Rt := some rate,
                 transactionAmountUSD := r.transactionAmount.map (· * rate) }

/-- `_calculate_and_save_forex_rates(rows, cache, save_to_db=True)` acting
on the rows it was given (the table subset selected by the caller). -/
def calcAndSaveForexRates (cache : ForexCache) (rows : List FinalRow) :
    List FinalRow :=
  rows.map (calcForexRow cache)

/-! ## The recalculation endpoint: `recalculate_avg_fx_rate` -/

/-- The exact-equality P&L test used in the endpoint's SQL (`LOWER(TRIM(c))`
equal to one of the three synonyms; a `NULL` column never matches). -/
def plExactO (s : Option String) : Bool :=
  match s with
  | none => false
  | some v =>
    normKey v == "profit and loss" || normKey v == "profit & loss"
      || normKey v == "p&l"

/-- A row is P&L for the endpoint when `category1` or `mainCategory`
matches a synonym exactly. -/
def rowPlExact (r : FinalRow) : Bool :=
  plExactO r.category1 || plExactO r.mainCategory

/-- `matching_currencies` (lines 950-958): local-currency spellings the
endpoint updates for the requested forex currency. -/
def matchingCurrencies (currency : String) : List String :=
  (if strEndsWith currency "IN" then [currency.dropRight 2, currency]
   else [currency] ++ (if currency.length == 3 then [currency ++ "IN"] else [])
  ).map strUpper

/-- SQL `UPPER(TRIM(localCurrencyCode)) IN matching`. -/
def rowCurrencyMatches (matching : List String) (r : FinalRow) : Bool :=
  matching.contains (strUpper (strTrim r.localCurrencyCode))

/-- The Balance-Sheet / non-P&L `UPDATE` of the endpoint (lines 970-992):
rate := `latest_rate`, USD := amount × rate, for categorized rows with an
amount, a matching currency and no exact P&L classification. -/
def recalcBSRow (lr : ℚ) (matching : List String) (r : FinalRow) : FinalRow :=
  if nonblankO r.mainCategory && r.transactionAmount.isSome
      && rowCurrencyMatches matching r && !rowPlExact r then
    { r with Avg_Fx_Rt := some lr,
             transactionAmountUSD := r.transactionAmount.map (· * lr) }
  else r

/-- The P&L `UPDATE` of the endpoint (lines 1016-1037): rate := average of
`initial_rate` and `latest_rate`. -/
def recalcPLRow (avg : ℚ) (matching : List String) (r : FinalRow) : FinalRow :=
  if nonblankO r.mainCategory && r.transactionAmount.isSome
      && rowCurrencyMatches matching r && rowPlExact r then
    { r with Avg_Fx_Rt := some avg,
             transactionAmountUSD := r.transactionAmount.map (· * avg) }
  else r

/-- `recalculate_avg_fx_rate` on the `final_structured` table: resolve the
latest legacy row for the requested currency (no change when absent or when
it has no rates), then run the Balance-Sheet update when `latest_rate`
exists and the P&L update when both rates exist. -/
def recalcAvgFxRate (ldb : List FxMasterRow) (currency : String)
    (table : List FinalRow) : List FinalRow :=
  match getLatestRowForCurrency ldb currency with
  | none => table
  | some fxrow =>
    match fxrow.initial_rate, fxrow.latest_rate with
    | none, none => table
    | some ir, some lr =>
      (table.map (recalcBSRow lr (matchingCurrencies currency))).map
        (recalcPLRow ((ir + lr) / 2) (matchingCurrencies currency))
    | none, some lr => table.map (recalcBSRow lr (matchingCurrencies currency))
    | some _, none => table

/-! ## Per-particular category update: `update_by_particular` -/

/-- A `code_master` row's six category columns. -/
structure Mapping where
  mainCategory : Option String
  category1 : Option String
  category2 : Option String
  category3 : Option String
  category4 : Option String
  category5 : Option String
  deriving DecidableEq, Repr

/-- The category `UPDATE` of `update_by_particular` (lines 821-842): every
row whose particular matches case-insensitively gets all six category
columns from the mapping, with empty strings collapsed to `NULL`
(`code_result.get(c) or None`). -/
def updCatsRow (p : String) (m : Mapping) (r : FinalRow) : FinalRow :=
  if normKey r.Particular == normKey p then
    { r with mainCategory := pyOrNoneS m.mainCategory,
             category1 := pyOrNoneS m.category1,
             category2 := pyOrNoneS m.category2,
             category3 := pyOrNoneS m.category3,
             category4 := pyOrNoneS m.category4,
             category5 := pyOrNoneS m.category5 }
  else r

/-- The category `UPDATE` applied to the whole table. -/
def updateByParticularCats (p : String) (m : Mapping)
    (table : List FinalRow) : List FinalRow :=
  table.map (updCatsRow p m)

/-- The full `update_by_particular` flow on the table: category update,
then forex calculation saved for the matching rows that now have a
non-blank `mainCategory` (lines 853-878). -/
def updateByParticular (edb : List EntityFxRate) (ldb : List FxMasterRow)
    (p : String) (m : Mapping) (table : List FinalRow) : List FinalRow :=
  let t1 := updateByParticularCats p m table
  let scope := fun r =>
    normKey r.Particular == normKey p && nonblankO r.mainCategory
  let cache := buildForexCache edb ldb (t1.filter scope)
  t1.map (fun r => if scope r then calcForexRow cache r else r)

/-! ## Ingestion FX pass (upload_data.py lines 1420-1450) -/

/-- The post-upload forex pass: rows of the uploaded entity/month/year with
a non-blank `mainCategory` and no rate yet get rates calculated and saved
(that query matches `entityCode`, `selectedMonth` and `Year` exactly). -/
def ingestionFxPass (edb : List EntityFxRate) (ldb : List FxMasterRow)
    (entCode month : String) (year : ℤ) (table : List FinalRow) :
    List FinalRow :=
  let scope := fun r =>
    r.entityCode == entCode && r.selectedMonth == month
      && sqlEqZ r.Year (some year)
      && nonblankO r.mainCategory && r.Avg_Fx_Rt.isNone
  let cache := buildForexCache edb ldb (table.filter scope)
  table.map (fun r => if scope r then calcForexRow cache r else r)

/-! ## Category-mapping sync: `_sync_final_structured_with_code_master`

`code_master` is modelled as a map from the normalized raw-particular key
to its category columns, per the table's upsert semantics (at most one
mapping per normalized key).
-/

/-- The sync's `WHERE` clause: at least one of the six category columns is
`NULL` or blank. -/
def anyCatBlank (r : FinalRow) : Bool :=
  blankO r.mainCategory || blankO r.category1 || blankO r.category2
    || blankO r.category3 || blankO r.category4 || blankO r.category5

/-- The sync's `SET` clause: all six category columns copied verbatim from
the mapping (`NULL` included). -/
def setCats (r : FinalRow) (m : Mapping) : FinalRow :=
  { r with mainCategory := m.mainCategory, category1 := m.category1,
           category2 := m.category2, category3 := m.category3,
           category4 := m.category4, category5 := m.category5 }

/-- One row of the sync `UPDATE ... JOIN`: rows whose normalized particular
matches a mapping key and that have some blank category column get all six
columns overwritten; every other row is untouched. -/
def syncRow (cm : String → Option Mapping) (r : FinalRow) : FinalRow :=
  match cm (normKey r.Particular) with
  | some m => if anyCatBlank r then setCats r m else r
  | none => r

/-- `_sync_final_structured_with_code_master` on the whole table. -/
def syncWithCodeMaster (cm : String → Option Mapping)
    (table : List FinalRow) : List FinalRow :=
  table.map (syncRow cm)

/-! ## Hard deduplication:
`deduplicate_final_structured_for_entity_month_year` -/

/-- SQL `ABS(a - b) < 0.01` on two nullable amounts (`NULL` never
matches). -/
def amtClose (a b : Option ℚ) : Bool :=
  match a, b with
  | some x, some y => |x - y| < 1 / 100
  | _, _ => false

/-- The dedup self-join's `ON` clause: same normalized particular, entity
code, selected month, year and month label, and amounts within 0.01. -/
def dedupKeyMatch (r1 r2 : FinalRow) : Bool :=
  normKey r1.Particular == normKey r2.Particular
    && normKey r1.entityCode == normKey r2.entityCode
    && normKey r1.selectedMonth == normKey r2.selectedMonth
    && sqlEqZ r1.Year r2.Year
    && normKey r1.Month == normKey r2.Month
    && amtClose r1.transactionAmount r2.transactionAmount

/-- The dedup `WHERE` clause: the deleted row must belong to the requested
entity/month/year scope. -/
def inDedupScope (entCode month : String) (year : ℤ) (r : FinalRow) : Bool :=
  normKey r.entityCode == normKey entCode
    && normKey r.selectedMonth == normKey month
    && sqlEqZ r.Year (some year)

/-- `deduplicate_final_structured_for_entity_month_year`: delete every
in-scope row for which a matching row with a smaller `sl_no` exists in the
table (snapshot semantics of the self-join `DELETE`). -/
def hardDedup (entCode month : String) (year : ℤ)
    (table : List FinalRow) : List FinalRow :=
  table.filter (fun r1 =>
    !(inDedupScope entCode month year r1
      && table.any (fun r2 => dedupKeyMatch r1 r2 && r2.sl_no < r1.sl_no)))

/-! ## Upload period validation: `financial_year_master.py` / `upload_file` -/

/-- A calendar date, ordered lexicographically (year, month, day). -/
structure Date where
  year : ℤ
  month : ℤ
  day : ℤ
  deriving DecidableEq, Repr

/-- `a <= b` on dates. -/
def dateLe (a b : Date) : Bool :=
  a.year < b.year || (a.year == b.year
    && (a.month < b.month || (a.month == b.month && a.day ≤ b.day)))

/-- `a < b` on dates. -/
def dateLt (a b : Date) : Bool := dateLe a b && !(a == b)

/-- One row of `financial_year_master`. -/
structure FYPeriod where
  id : ℤ
  financial_year : String
  start_date : Date
  end_date : Date
  is_active : Bool
  deriving DecidableEq, Repr

/-- The last two characters of a string (Python `str(year)[-2:]`). -/
def lastTwo (s : String) : String :=
  String.mk ((s.toList.reverse.take 2).reverse)

/-- The FY label `check_if_previous_fy` suggests for a date: months
January-March belong to the fiscal year that started the previous calendar
year. -/
def suggestedFy (d : Date) : String :=
  if d.month ≤ 3 then toString (d.year - 1) ++ "-" ++ lastTwo (toString d.year)
  else toString d.year ++ "-" ++ lastTwo (toString (d.year + 1))

/-- `validate_date_against_fy_master(check_date)`: the first active period
whose date range contains the date (`LIMIT 1`). -/
def validateDateAgainstFyMaster (fys : List FYPeriod) (d : Date) :
    Option FYPeriod :=
  fys.find? (fun p => p.is_active && dateLe p.start_date d && dateLe d p.end_date)

/-- The earliest active period by start date
(`ORDER BY start_date ASC LIMIT 1`). -/
def earliestActiveFy (fys : List FYPeriod) : Option FYPeriod :=
  (fys.filter (·.is_active)).foldl
    (fun best p =>
      match best with
      | none => some p
      | some b => if dateLt p.start_date b.start_date then some p else some b)
    none

/-- `check_if_previous_fy(check_date)`: `some suggestion` when no active
period is configured at all or the date precedes the earliest one. -/
def checkIfPreviousFy (fys : List FYPeriod) (d : Date) : Option String :=
  match earliestActiveFy fys with
  | none => some (suggestedFy d)
  | some p =>
    if dateLt d p.start_date then some (suggestedFy d) else none

/-- `get_current_financial_year()`: the active period containing today. -/
def getCurrentFinancialYear (fys : List FYPeriod) (today : Date) :
    Option FYPeriod :=
  validateDateAgainstFyMaster fys today

/-- The period-policy outcome of `upload_file` (lines 1044-1090). -/
inductive UploadDecision where
  | accepted (fy : String)
  | previousFyNotConfigured (suggested : String)
  | fyValidationFailed
  | notCurrentFy (selected current : String)
  deriving DecidableEq, Repr

/-- The fiscal-period gate of `upload_file`: a date outside every active
period is rejected (with the previous-FY code and a suggested label when it
precedes all periods); a date in a configured period is rejected when a
current FY exists and differs; when no current FY exists the current-year
check is skipped and the upload proceeds. -/
def uploadFyDecision (fys : List FYPeriod) (today d : Date) : UploadDecision :=
  match validateDateAgainstFyMaster fys d with
  | none =>
    match checkIfPreviousFy fys d with
    | some sug => UploadDecision.previousFyNotConfigured sug
    | none => UploadDecision.fyValidationFailed
  | some p =>
    match getCurrentFinancialYear fys today with
    | some cur =>
      if p.financial_year == cur.financial_year then
        UploadDecision.accepted p.financial_year
      else UploadDecision.notCurrentFy p.financial_year cur.financial_year
    | none => UploadDecision.accepted p.financial_year

/-- The write phase of `upload_file` relative to the gate: the
delete/insert steps (lines 1108 onward) run only after the gate accepts;
on rejection the handler returns before touching the ledger. `writes`
stands for the delete-then-reinsert/dedup/FX steps. -/
def uploadPipeline (fys : List FYPeriod) (today d : Date)
    (writes : List FinalRow → List FinalRow) (table : List FinalRow) :
    UploadDecision × List FinalRow :=
  match uploadFyDecision fys today d with
  | UploadDecision.accepted fy => (UploadDecision.accepted fy, writes table)
  | dec => (dec, table)

/-! ## Cell parsing: `parse_amount_and_type` / `calculate_amt_tb_lc`

A spreadsheet cell is modelled by the signed numeric value its regex
(`-?[\d,]+\.?\d*`, commas removed) extracts — `none` when no number parses —
together with any textual remainder (e.g. a "Dr"/"Cr" marker), which the
parser never reads.
-/

/-- The Dr/Cr tag derived from the numeric sign alone. -/
inductive AmountType where
  | Dr
  | Cr
  deriving DecidableEq, Repr

/-- A spreadsheet cell: extracted numeric value plus surrounding text. -/
structure Cell where
  num : Option ℚ
  text : String
  deriving DecidableEq, Repr

/-- `parse_amount_and_type(cell_value)`: absolute value plus a type fixed
by the sign only (zero defaults to `Dr`); the cell's text is ignored. -/
def parse_amount_and_type (cell : Cell) : Option (ℚ × AmountType) :=
  match cell.num with
  | none => none
  | some v =>
    if v < 0 then some (|v|, AmountType.Cr) else some (|v|, AmountType.Dr)

/-- `calculate_amt_tb_lc(amount, amount_type)`: `Dr` → positive, `Cr` →
negative; `None` propagates. -/
def calculate_amt_tb_lc : Option (ℚ × AmountType) → Option ℚ
  | none => none
  | some (a, AmountType.Dr) => some |a|
  | some (a, AmountType.Cr) => some (-|a|)

/-! ## Row invariant for the FX-gating claim -/

/-- The FX gating invariant on one row: a non-null `Avg_Fx_Rt` requires a
non-null, non-blank `mainCategory`. -/
def rowFxGateB (r : FinalRow) : Bool :=
  !r.Avg_Fx_Rt.isSome || nonblankO r.mainCategory

/-- The FX gating invariant on a table. -/
def tableFxGateB (table : List FinalRow) : Bool :=
  table.all rowFxGateB

/-- An FX record with the given opening and closing rates (cache entries
always mirror them into `initial_rate`/`latest_rate`, see
`entityEntryValue` and `buildLegacyEntry`). -/
def mkFxEntry (o c : Option ℚ) : FxCacheEntry :=
  { opening_rate := o, closing_rate := c, initial_rate := o, latest_rate := c }

/-! ## Helper lemmas -/

lemma blankO_false_of_nonblank {s : Option String}
    (h : nonblankO s = true) : blankO s = false := by
  cases hb : blankO s with
  | false => rfl
  | true => simp [nonblankO, hb] at h

lemma applyForexRow_rate {cache : ForexCache} {r : FinalRow}
    {fx : FxCacheEntry} {rate : ℚ}
    (hb : blankO r.mainCategory = false)
    (hlk : lookupRowFx cache r = some fx)
    (hr : computeFxRate (rowIsPL r) fx = some rate) :
    (applyForexRow cache r).Avg_Fx_Rt = some rate := by
  unfold applyForexRow
  rw [hb, hlk]
  simp only [hr]
  cases r.transactionAmount <;> rfl

lemma calcForexRow_rate {cache : ForexCache} {r : FinalRow}
    {fx : FxCacheEntry} {rate : ℚ}
    (hb : blankO r.mainCategory = false)
    (hlk : lookupRowFx cache r = some fx)
    (hr : computeFxRate (rowIsPL r) fx = some rate) :
    (calcForexRow cache r).Avg_Fx_Rt = some rate := by
  unfold calcForexRow
  rw [hb, hlk]
  simp only [hr]
  rfl

lemma applyForexRow_skip {cache : ForexCache} {r : FinalRow}
    {fx : FxCacheEntry}
    (hlk : lookupRowFx cache r = some fx)
    (hr : computeFxRate (rowIsPL r) fx = none) :
    applyForexRow cache r = r := by
  unfold applyForexRow
  rw [hlk]
  simp only [hr]
  split <;> rfl

lemma calcForexRow_skip {cache : ForexCache} {r : FinalRow}
    {fx : FxCacheEntry}
    (hlk : lookupRowFx cache r = some fx)
    (hr : computeFxRate (rowIsPL r) fx = none) :
    calcForexRow cache r = r := by
  unfold calcForexRow
  rw [hlk]
  simp only [hr]
  split <;> rfl

/-! ## Claims -/

/-- C1: with a resolved FX record carrying opening_rate 80 and closing_rate
84, a categorized row classified as P&L by its `category1`/`mainCategory`
text gets rate 82 (the average) and a row classified as Balance Sheet (or
anything else) gets rate 84 (the closing rate), both in the in-memory
enrichment (`_apply_forex_rates`) and in the database save
(`_calculate_and_save_forex_rates`). -/
theorem fx_rate_80_84_selection (cache : ForexCache) (r : FinalRow)
    (fx : FxCacheEntry)
    (hmc : nonblankO r.mainCategory = true)
    (hlk : lookupRowFx cache r = some fx)
    (hop : fx.opening_rate = some 80)
    (hcl : fx.closing_rate = some 84) :
    (rowIsPL r = true →
      (applyForexRow cache r).Avg_Fx_Rt = some 82 ∧
      (calcForexRow cache r).Avg_Fx_Rt = some 82) ∧
    (rowIsPL r = false →
      (applyForexRow cache r).Avg_Fx_Rt = some 84 ∧
      (calcForexRow cache r).Avg_Fx_Rt = some 84) := by
  have hb := blankO_false_of_nonblank hmc
  constructor
  · intro hpl
    have hr : computeFxRate (rowIsPL r) fx = some 82 := by
      rw [hpl]
      unfold computeFxRate
      rw [hop, hcl]
      norm_num [pyOrQ]
    exact ⟨applyForexRow_rate hb hlk hr, calcForexRow_rate hb hlk hr⟩
  · intro hpl
    have hr : computeFxRate (rowIsPL r) fx = some 84 := by
      rw [hpl]
      unfold computeFxRate
      rw [hop, hcl]
      norm_num [pyOrQ]
    exact ⟨applyForexRow_rate hb hlk hr, calcForexRow_rate hb hlk hr⟩

/-- C1 witness: a concrete P&L row and a concrete Balance-Sheet row under a
cache entry with rates 80/84 resolve to 82 and 84 respectively. -/
theorem fx_rate_80_84_selection_witness :
    (applyForexRow
      [(CacheKey.legacy "EUR", mkFxEntry (some 80) (some 84))]
      { sl_no := 1, Particular := "Sales", entityCode := "E1",
        selectedMonth := "April", Month := "April", Year := some 2024,
        mainCategory := some "Profit and Loss", category1 := some "Income",
        category2 := none, category3 := none, category4 := none,
        category5 := none, localCurrencyCode := "EUR",
        transactionAmount := some 10, Avg_Fx_Rt := none,
        transactionAmountUSD := none, entity_id := none,
        financial_year := none }).Avg_Fx_Rt = some 82 ∧
    (calcForexRow
      [(CacheKey.legacy "EUR", mkFxEntry (some 80) (some 84))]
      { sl_no := 2, Particular := "Cash", entityCode := "E1",
        selectedMonth := "April", Month := "April", Year := some 2024,
        mainCategory := some "Balance Sheet", category1 := some "Assets",
        category2 := none, category3 := none, category4 := none,
        category5 := none, localCurrencyCode := "EUR",
        transactionAmount := some 10, Avg_Fx_Rt := none,
        transactionAmountUSD := none, entity_id := none,
        financial_year := none }).Avg_Fx_Rt = some 84 := by
  constructor
  · exact ((fx_rate_80_84_selection _ _ (mkFxEntry (some 80) (some 84))
      (by decide) (by decide) rfl rfl).1 (by decide)).1
  · exact ((fx_rate_80_84_selection _ _ (mkFxEntry (some 80) (some 84))
      (by decide) (by decide) rfl rfl).2 (by decide)).2

/-- C2 counterexample: the claim says a P&L row whose FX record has only an
opening rate (closing absent) still receives that opening rate; the code's
P&L branch only falls back to the closing rate, so such a record yields no
rate at all. -/
theorem pl_opening_only_counterexample :
    computeFxRate true (mkFxEntry (some 80) none) = none ∧
    ¬ computeFxRate true (mkFxEntry (some 80) none) = some 80 := by
  constructor <;> decide

/-- C2 (amended): for a row with a resolved FX record: if P&L-like, the
effective rate is the average when both rates exist and the closing rate
when only it exists; a P&L row with only an opening rate is left unrated.
If BS-like, the effective rate is the closing rate only; when the closing
rate is absent the row is left with no rate and no USD amount. -/
theorem fx_effective_rate_rules (cache : ForexCache) (r : FinalRow) :
    (∀ o c : ℚ, computeFxRate true (mkFxEntry (some o) (some c)) =
      some ((o + c) / 2)) ∧
    (∀ c : ℚ, computeFxRate true (mkFxEntry none (some c)) = some c) ∧
    (∀ o : ℚ, computeFxRate true (mkFxEntry (some o) none) = none) ∧
    (∀ o c : ℚ, computeFxRate false (mkFxEntry (some o) (some c)) = some c) ∧
    (∀ o : Option ℚ, computeFxRate false (mkFxEntry o none) = none) ∧
    (∀ fx : FxCacheEntry, lookupRowFx cache r = some fx →
      computeFxRate (rowIsPL r) fx = none →
      applyForexRow cache r = r ∧ calcForexRow cache r = r) := by
  refine ⟨?_, ?_, ?_, ?_, ?_, ?_⟩
  · intro o c
    unfold computeFxRate mkFxEntry pyOrQ
    by_cases ho : o = 0 <;> by_cases hc : c = 0 <;> simp [ho, hc]
  · intro c
    unfold computeFxRate mkFxEntry pyOrQ
    by_cases hc : c = 0 <;> simp [hc]
  · intro o
    unfold computeFxRate mkFxEntry pyOrQ
    by_cases ho : o = 0 <;> simp [ho]
  · intro o c
    unfold computeFxRate mkFxEntry pyOrQ
    by_cases ho : o = 0 <;> by_cases hc : c = 0 <;> simp [ho, hc]
  · intro o
    unfold computeFxRate mkFxEntry pyOrQ
    cases o with
    | none => rfl
    | some x => by_cases hx : x = 0 <;> simp [hx]
  · intro fx hlk hr
    exact ⟨applyForexRow_skip hlk hr, calcForexRow_skip hlk hr⟩

/-- C2 witness: the amended rules evaluated at concrete rates, and a
concrete BS row with a closing-less record left fully unchanged. -/
theorem fx_effective_rate_rules_witness :
    computeFxRate true (mkFxEntry (some 80) (some 84)) = some 82 ∧
    computeFxRate true (mkFxEntry none (some 84)) = some 84 ∧
    computeFxRate true (mkFxEntry (some 80) none) = none ∧
    computeFxRate false (mkFxEntry (some 80) (some 84)) = some 84 ∧
    computeFxRate false (mkFxEntry (some 80) none) = none ∧
    applyForexRow [(CacheKey.legacy "EUR", mkFxEntry (some 80) none)]
      { sl_no := 2, Particular := "Cash", entityCode := "E1",
        selectedMonth := "April", Month := "April", Year := some 2024,
        mainCategory := some "Balance Sheet", category1 := some "Assets",
        category2 := none, category3 := none, category4 := none,
        category5 := none, localCurrencyCode := "EUR",
        transactionAmount := some 10, Avg_Fx_Rt := none,
        transactionAmountUSD := none, entity_id := none,
        financial_year := none } =
      { sl_no := 2, Particular := "Cash", entityCode := "E1",
        selectedMonth := "April", Month := "April", Year := some 2024,
        mainCategory := some "Balance Sheet", category1 := some "Assets",
        category2 := none, category3 := none, category4 := none,
        category5 := none, localCurrencyCode := "EUR",
        transactionAmount := some 10, Avg_Fx_Rt := none,
        transactionAmountUSD := none, entity_id := none,
        financial_year := none } := by
  have h := fx_effective_rate_rules
    [(CacheKey.legacy "EUR", mkFxEntry (some 80) none)]
    { sl_no := 2, Particular := "Cash", entityCode := "E1",
      selectedMonth := "April", Month := "April", Year := some 2024,
      mainCategory := some "Balance Sheet", category1 := some "Assets",
      category2 := none, category3 := none, category4 := none,
      category5 := none, localCurrencyCode := "EUR",
      transactionAmount := some 10, Avg_Fx_Rt := none,
      transactionAmountUSD := none, entity_id := none,
      financial_year := none }
  refine ⟨?_, h.2.1 84, h.2.2.1 80, h.2.2.2.1 80 84, h.2.2.2.2.1 (some 80),
    (h.2.2.2.2.2 (mkFxEntry (some 80) none) (by decide) (by decide)).1⟩
  have := h.1 80 84
  norm_num at this
  exact this

/-- C4: the derived row's `transactionAmount` equals the signed numeric
value the parser extracts from the source cell, so it is positive exactly
when that value is positive (Dr) and negative exactly when it is negative
(Cr); the cell's text (any Dr/Cr marker) never influences the result. -/
theorem sign_from_numeric_value (v : ℚ) (t t' : String) :
    calculate_amt_tb_lc (parse_amount_and_type { num := some v, text := t }) =
      some v ∧
    (∀ a : ℚ,
      calculate_amt_tb_lc
        (parse_amount_and_type { num := some v, text := t }) = some a →
      ((0 < a ↔ 0 < v) ∧ (a < 0 ↔ v < 0))) ∧
    parse_amount_and_type { num := some v, text := t } =
      parse_amount_and_type { num := some v, text := t' } := by
  have hmain : calculate_amt_tb_lc
      (parse_amount_and_type { num := some v, text := t }) = some v := by
    unfold parse_amount_and_type calculate_amt_tb_lc
    by_cases hv : v < 0
    · simp only [hv, if_pos]
      rw [abs_abs, abs_of_neg hv, neg_neg]
    · simp only [hv, if_neg, ite_false]
      rw [abs_abs, abs_of_nonneg (le_of_not_lt hv)]
  refine ⟨hmain, ?_, ?_⟩
  · intro a ha
    rw [hmain] at ha
    cases ha
    exact ⟨Iff.rfl, Iff.rfl⟩
  · unfold parse_amount_and_type
    rfl

/-- C4 witness: a cell whose number is -200 but whose text says "Dr" still
yields transactionAmount -200 (negative, Cr semantics). -/
theorem sign_from_numeric_value_witness :
    calculate_amt_tb_lc
      (parse_amount_and_type { num := some (-200), text := "Dr" }) =
      some (-200) ∧
    ((-200 : ℚ) < 0 ↔ (-200 : ℚ) < 0) ∧
    parse_amount_and_type { num := some (-200), text := "Dr" } =
      parse_amount_and_type { num := some (-200), text := "500 Cr" } := by
  have h := sign_from_numeric_value (-200) "Dr" "500 Cr"
  exact ⟨h.1, (h.2.1 (-200) h.1).2, h.2.2⟩

/-! ## Category-sync lemmas and claim C7 -/

lemma syncRow_of_noBlank {cm : String → Option Mapping} {r : FinalRow}
    (h : anyCatBlank r = false) : syncRow cm r = r := by
  unfold syncRow
  cases cm (normKey r.Particular) with
  | none => rfl
  | some m => rw [h]; rfl

lemma syncRow_of_noMapping {cm : String → Option Mapping} {r : FinalRow}
    (h : cm (normKey r.Particular) = none) : syncRow cm r = r := by
  unfold syncRow
  rw [h]

lemma syncRow_overwrite {cm : String → Option Mapping} {r : FinalRow}
    {m : Mapping} (hm : cm (normKey r.Particular) = some m)
    (hb : anyCatBlank r = true) : syncRow cm r = setCats r m := by
  unfold syncRow
  rw [hm]
  simp only [hb]
  rfl

lemma setCats_Particular (r : FinalRow) (m : Mapping) :
    (setCats r m).Particular = r.Particular := rfl

lemma setCats_setCats (r : FinalRow) (m : Mapping) :
    setCats (setCats r m) m = setCats r m := rfl

lemma syncRow_idem (cm : String → Option Mapping) (r : FinalRow) :
    syncRow cm (syncRow cm r) = syncRow cm r := by
  cases hm : cm (normKey r.Particular) with
  | none => rw [syncRow_of_noMapping hm, syncRow_of_noMapping hm]
  | some m =>
    cases hb : anyCatBlank r with
    | false => rw [syncRow_of_noBlank hb, syncRow_of_noBlank hb]
    | true =>
      rw [syncRow_overwrite hm hb]
      have hm2 : cm (normKey (setCats r m).Particular) = some m := by
        rw [setCats_Particular]; exact hm
      cases hb2 : anyCatBlank (setCats r m) with
      | false => exact syncRow_of_noBlank hb2
      | true => rw [syncRow_overwrite hm2 hb2, setCats_setCats]

/-- C7: the category-mapping sync overwrites all six category fields from
the matching mapping only for rows whose normalized particular matches a
mapping key and that have at least one blank category field; a fully
populated row is never modified; the sync is idempotent. -/
theorem category_sync_contract (cm : String → Option Mapping)
    (table : List FinalRow) (r : FinalRow) (m : Mapping) :
    (anyCatBlank r = false → syncRow cm r = r) ∧
    (cm (normKey r.Particular) = none → syncRow cm r = r) ∧
    (cm (normKey r.Particular) = some m → anyCatBlank r = true →
      syncRow cm r = setCats r m) ∧
    syncWithCodeMaster cm (syncWithCodeMaster cm table) =
      syncWithCodeMaster cm table := by
  refine ⟨fun h => syncRow_of_noBlank h, fun h => syncRow_of_noMapping h,
    fun hm hb => syncRow_overwrite hm hb, ?_⟩
  unfold syncWithCodeMaster
  rw [List.map_map]
  induction table with
  | nil => rfl
  | cons a l ih =>
    simp only [List.map_cons, Function.comp_apply, syncRow_idem]
    simp only [List.map_map] at ih
    rw [ih]

/-- C7 witness: a concrete two-row table (one row with blank categories
matched by the mapping, one fully populated) where the sync overwrites the
first row, keeps the second, and is idempotent. -/
theorem category_sync_contract_witness :
    (syncRow
        (fun k => if k = "cash" then
          some { mainCategory := some "Balance Sheet",
                 category1 := some "Assets", category2 := some "Current",
                 category3 := none, category4 := none, category5 := none }
          else none)
        { sl_no := 7, Particular := "Done", entityCode := "E1",
          selectedMonth := "April", Month := "April", Year := some 2024,
          mainCategory := some "Balance Sheet", category1 := some "Assets",
          category2 := some "a", category3 := some "b", category4 := some "c",
          category5 := some "d", localCurrencyCode := "EUR",
          transactionAmount := some 1, Avg_Fx_Rt := none,
          transactionAmountUSD := none, entity_id := none,
          financial_year := none } =
      { sl_no := 7, Particular := "Done", entityCode := "E1",
        selectedMonth := "April", Month := "April", Year := some 2024,
        mainCategory := some "Balance Sheet", category1 := some "Assets",
        category2 := some "a", category3 := some "b", category4 := some "c",
        category5 := some "d", localCurrencyCode := "EUR",
        transactionAmount := some 1, Avg_Fx_Rt := none,
        transactionAmountUSD := none, entity_id := none,
        financial_year := none }) ∧
    (syncRow
        (fun k => if k = "cash" then
          some { mainCategory := some "Balance Sheet",
                 category1 := some "Assets", category2 := some "Current",
                 category3 := none, category4 := none, category5 := none }
          else none)
        { sl_no := 8, Particular := " Cash ", entityCode := "E1",
          selectedMonth := "April", Month := "April", Year := some 2024,
          mainCategory := none, category1 := none, category2 := none,
          category3 := none, category4 := none, category5 := none,
          localCurrencyCode := "EUR", transactionAmount := some 1,
          Avg_Fx_Rt := none, transactionAmountUSD := none,
          entity_id := none, financial_year := none } =
      setCats
        { sl_no := 8, Particular := " Cash ", entityCode := "E1",
          selectedMonth := "April", Month := "April", Year := some 2024,
          mainCategory := none, category1 := none, category2 := none,
          category3 := none, category4 := none, category5 := none,
          localCurrencyCode := "EUR", transactionAmount := some 1,
          Avg_Fx_Rt := none, transactionAmountUSD := none,
          entity_id := none, financial_year := none }
        { mainCategory := some "Balance Sheet", category1 := some "Assets",
          category2 := some "Current", category3 := none, category4 := none,
          category5 := none }) := by
  constructor
  · exact (category_sync_contract _ [] _
      { mainCategory := none, category1 := none, category2 := none,
        category3 := none, category4 := none, category5 := none }).1
      (by decide)
  · exact (category_sync_contract _ [] _ _).2.2.1 (by decide) (by decide)

/-! ## Hard-dedup lemmas and claim C8 -/

/-- The dedup `DELETE`'s row condition: the row is in scope and some row of
the (pre-delete) table matches it with a smaller `sl_no`. -/
def isDupB (entCode month : String) (year : ℤ) (table : List FinalRow)
    (r : FinalRow) : Bool :=
  inDedupScope entCode month year r
    && table.any (fun r2 => dedupKeyMatch r r2 && r2.sl_no < r.sl_no)

lemma hardDedup_eq_filter (entCode month : String) (year : ℤ)
    (table : List FinalRow) :
    hardDedup entCode month year table =
      table.filter (fun r => !isDupB entCode month year table r) := rfl

/-- The table has no in-scope row duplicating an earlier (smaller `sl_no`)
matching row. -/
abbrev CleanScope (entCode month : String) (year : ℤ)
    (table : List FinalRow) : Prop :=
  ∀ r1 ∈ table, ∀ r2 ∈ table,
    inDedupScope entCode month year r1 = true →
    dedupKeyMatch r1 r2 = true → ¬ r2.sl_no < r1.sl_no

lemma isDupB_false_of_clean {entCode month : String} {year : ℤ}
    {table : List FinalRow} (hc : CleanScope entCode month year table)
    {r : FinalRow} (hr : r ∈ table) :
    isDupB entCode month year table r = false := by
  unfold isDupB
  cases hin : inDedupScope entCode month year r with
  | false => rfl
  | true =>
    simp only [Bool.true_and]
    rw [List.any_eq_false]
    intro r2 hr2
    simp only [Bool.and_eq_true, decide_eq_true_eq, not_and]
    intro hk2
    exact hc r hr r2 hr2 hin hk2

lemma hardDedup_of_clean {entCode month : String} {year : ℤ}
    {table : List FinalRow} (hc : CleanScope entCode month year table) :
    hardDedup entCode month year table = table := by
  rw [hardDedup_eq_filter]
  apply List.filter_eq_self.mpr
  intro r hr
  rw [isDupB_false_of_clean hc hr]
  rfl

lemma mem_hardDedup {entCode month : String} {year : ℤ}
    {table : List FinalRow} {r : FinalRow} :
    r ∈ hardDedup entCode month year table ↔
      r ∈ table ∧ isDupB entCode month year table r = false := by
  rw [hardDedup_eq_filter, List.mem_filter]
  simp

lemma hardDedup_clean (entCode month : String) (year : ℤ)
    (table : List FinalRow) :
    CleanScope entCode month year (hardDedup entCode month year table) := by
  intro r1 h1 r2 h2 hin hk hlt
  rw [mem_hardDedup] at h1 h2
  have hdup : isDupB entCode month year table r1 = true := by
    unfold isDupB
    rw [hin]
    simp only [Bool.true_and]
    rw [List.any_eq_true]
    exact ⟨r2, h2.1, by rw [hk]; simpa using hlt⟩
  rw [h1.2] at hdup
  exact Bool.false_ne_true hdup

/-- C8: the hard deduplication pass scoped to one (entity code, month
label, fiscal year) deletes exactly the in-scope rows for which a row with
the same normalized key (amounts equal within 0.01) and a smaller
identifier exists, so in each duplicate group only the lowest-`sl_no` row
survives; re-running it on a table free of such duplicates deletes
nothing, and the pass is idempotent. -/
theorem hard_dedup_contract (entCode month : String) (year : ℤ)
    (table : List FinalRow) (r : FinalRow) :
    (r ∈ hardDedup entCode month year table ↔
      r ∈ table ∧ ¬(inDedupScope entCode month year r = true ∧
        ∃ r2 ∈ table, dedupKeyMatch r r2 = true ∧ r2.sl_no < r.sl_no)) ∧
    (CleanScope entCode month year table →
      hardDedup entCode month year table = table) ∧
    hardDedup entCode month year (hardDedup entCode month year table) =
      hardDedup entCode month year table := by
  refine ⟨?_, fun hc => hardDedup_of_clean hc, ?_⟩
  · rw [mem_hardDedup]
    constructor
    · rintro ⟨hmem, hdup⟩
      refine ⟨hmem, ?_⟩
      rintro ⟨hin, r2, hr2, hk, hlt⟩
      have : isDupB entCode month year table r = true := by
        unfold isDupB
        rw [hin]
        simp only [Bool.true_and]
        rw [List.any_eq_true]
        exact ⟨r2, hr2, by rw [hk]; simpa using hlt⟩
      rw [hdup] at this
      exact Bool.false_ne_true this
    · rintro ⟨hmem, hnd⟩
      refine ⟨hmem, ?_⟩
      cases hdup : isDupB entCode month year table r with
      | false => rfl
      | true =>
        exfalso
        unfold isDupB at hdup
        rw [Bool.and_eq_true, List.any_eq_true] at hdup
        obtain ⟨hin, r2, hr2, hk2⟩ := hdup
        rw [Bool.and_eq_true] at hk2
        exact hnd ⟨hin, r2, hr2, hk2.1, by simpa using hk2.2⟩
  · exact hardDedup_of_clean (hardDedup_clean entCode month year table)

/-- C8 witness: on a concrete duplicate-free single-row scope the pass
deletes nothing. -/
theorem hard_dedup_contract_witness :
    hardDedup "E1" "April" 2024
      [{ sl_no := 1, Particular := "Cash", entityCode := "E1",
         selectedMonth := "April", Month := "April", Year := some 2024,
         mainCategory := none, category1 := none, category2 := none,
         category3 := none, category4 := none, category5 := none,
         localCurrencyCode := "EUR", transactionAmount := none,
         Avg_Fx_Rt := none, transactionAmountUSD := none,
         entity_id := none, financial_year := none }] =
      [{ sl_no := 1, Particular := "Cash", entityCode := "E1",
         selectedMonth := "April", Month := "April", Year := some 2024,
         mainCategory := none, category1 := none, category2 := none,
         category3 := none, category4 := none, category5 := none,
         localCurrencyCode := "EUR", transactionAmount := none,
         Avg_Fx_Rt := none, transactionAmountUSD := none,
         entity_id := none, financial_year := none }] :=
  (hard_dedup_contract "E1" "April" 2024 _
      { sl_no := 1, Particular := "Cash", entityCode := "E1",
        selectedMonth := "April", Month := "April", Year := some 2024,
        mainCategory := none, category1 := none, category2 := none,
        category3 := none, category4 := none, category5 := none,
        localCurrencyCode := "EUR", transactionAmount := none,
        Avg_Fx_Rt := none, transactionAmountUSD := none,
        entity_id := none, financial_year := none }).2.1 (by decide)

/-! ## Legacy-fallback lemmas and claim C6 -/

/-- The fold step of `getLatestRowForCurrency`: keep whichever row sorts
later under the `(timestamp, fx_id)` key. -/
def laterRow (best : Option FxMasterRow) (r : FxMasterRow) :
    Option FxMasterRow :=
  match best with
  | none => some r
  | some b => if keyLt (fxSortKey b) (fxSortKey r) then some r else some b

lemma getLatestRowForCurrency_eq_foldl (ldb : List FxMasterRow)
    (code : String) :
    getLatestRowForCurrency ldb code =
      (ldb.filter (fun r => r.currency == code)).foldl laterRow none := rfl

lemma keyLt_irrefl (a : ℤ × ℤ) : keyLt a a = false := by
  simp [keyLt]

lemma keyLt_iff (a b : ℤ × ℤ) :
    keyLt a b = true ↔ (a.1 < b.1 ∨ (a.1 = b.1 ∧ a.2 < b.2)) := by
  simp [keyLt]

lemma keyLt_not_iff (a b : ℤ × ℤ) :
    keyLt a b = false ↔ ¬(a.1 < b.1 ∨ (a.1 = b.1 ∧ a.2 < b.2)) := by
  rw [← keyLt_iff]
  cases keyLt a b <;> simp

lemma keyLt_asymm {a b : ℤ × ℤ} (h : keyLt a b = true) :
    keyLt b a = false := by
  rw [keyLt_iff] at h
  rw [keyLt_not_iff]
  omega

lemma keyLt_trans_not {a b c : ℤ × ℤ} (h1 : keyLt a b = false)
    (h2 : keyLt b c = false) : keyLt a c = false := by
  rw [keyLt_not_iff] at h1 h2 ⊢
  omega

lemma laterRow_spec {acc : Option FxMasterRow} {a c : FxMasterRow}
    (h : laterRow acc a = some c) :
    keyLt (fxSortKey c) (fxSortKey a) = false ∧
    (∀ b, acc = some b → keyLt (fxSortKey c) (fxSortKey b) = false) ∧
    (c = a ∨ acc = some c) := by
  cases acc with
  | none =>
    cases h
    exact ⟨keyLt_irrefl _, (by intro b hb; cases hb), Or.inl rfl⟩
  | some b =>
    simp only [laterRow] at h
    by_cases hk : keyLt (fxSortKey b) (fxSortKey a) = true
    · rw [if_pos hk] at h
      cases h
      refine ⟨keyLt_irrefl _, ?_, Or.inl rfl⟩
      intro b' hb'
      cases hb'
      exact keyLt_asymm hk
    · rw [if_neg hk] at h
      cases h
      refine ⟨Bool.not_eq_true _ ▸ hk, ?_, Or.inr rfl⟩
      intro b' hb'
      cases hb'
      exact keyLt_irrefl _

lemma foldl_laterRow_spec (l : List FxMasterRow) :
    ∀ (acc : Option FxMasterRow) (r : FxMasterRow),
      l.foldl laterRow acc = some r →
      (r ∈ l ∨ acc = some r) ∧
      (∀ x ∈ l, keyLt (fxSortKey r) (fxSortKey x) = false) ∧
      (∀ b, acc = some b → keyLt (fxSortKey r) (fxSortKey b) = false) := by
  induction l with
  | nil =>
    intro acc r h
    simp only [List.foldl_nil] at h
    refine ⟨Or.inr h, (by intro x hx; cases hx), ?_⟩
    intro b hb
    rw [h] at hb
    cases hb
    exact keyLt_irrefl _
  | cons a l ih =>
    intro acc r h
    simp only [List.foldl_cons] at h
    obtain ⟨c, hacc⟩ : ∃ c, laterRow acc a = some c := by
      cases acc with
      | none => exact ⟨a, rfl⟩
      | some b =>
        by_cases hk : keyLt (fxSortKey b) (fxSortKey a) = true
        · exact ⟨a, by simp [laterRow, hk]⟩
        · exact ⟨b, by simp [laterRow, hk]⟩
    rw [hacc] at h
    obtain ⟨hmem, hall, haccle⟩ := ih (some c) r h
    obtain ⟨hca, hcb, hcmem⟩ := laterRow_spec hacc
    have hrc : keyLt (fxSortKey r) (fxSortKey c) = false := haccle c rfl
    have hra : keyLt (fxSortKey r) (fxSortKey a) = false :=
      keyLt_trans_not hrc hca
    refine ⟨?_, ?_, ?_⟩
    · rcases hmem with hm | hm
      · exact Or.inl (List.mem_cons_of_mem a hm)
      · cases hm
        rcases hcmem with hc1 | hc2
        · exact Or.inl (hc1 ▸ List.mem_cons_self r l)
        · exact Or.inr hc2
    · intro x hx
      rcases List.mem_cons.mp hx with hx1 | hx2
      · exact hx1 ▸ hra
      · exact hall x hx2
    · intro b hb
      exact keyLt_trans_not hrc (hcb b hb)

lemma getLatestRow_spec {ldb : List FxMasterRow} {code : String}
    {r : FxMasterRow} (h : getLatestRowForCurrency ldb code = some r) :
    r ∈ ldb ∧ r.currency = code ∧
      ∀ x ∈ ldb, x.currency = code →
        keyLt (fxSortKey r) (fxSortKey x) = false := by
  rw [getLatestRowForCurrency_eq_foldl] at h
  obtain ⟨hmem, hall, -⟩ := foldl_laterRow_spec _ none r h
  rcases hmem with hm | hm
  · rw [List.mem_filter] at hm
    refine ⟨hm.1, by simpa using hm.2, ?_⟩
    intro x hx hxc
    exact hall x (List.mem_filter.mpr ⟨hx, by simpa using hxc⟩)
  · cases hm

/-- The seen-set loop agrees with plain first-hit search when every code
already seen has no legacy row. -/
def firstHitPlain (ldb : List FxMasterRow) : List String →
    Option (String × FxMasterRow)
  | [] => none
  | c :: rest =>
    match getLatestRowForCurrency ldb c with
    | some r => some (c, r)
    | none => firstHitPlain ldb rest

lemma firstLegacyHitLoop_eq_plain (ldb : List FxMasterRow) :
    ∀ (l seen : List String),
      (∀ s ∈ seen, getLatestRowForCurrency ldb s = none) →
      firstLegacyHitLoop ldb seen l = firstHitPlain ldb l := by
  intro l
  induction l with
  | nil => intro seen _; rfl
  | cons c rest ih =>
    intro seen hseen
    unfold firstLegacyHitLoop firstHitPlain
    by_cases hc : seen.contains c
    · rw [if_pos hc]
      have : getLatestRowForCurrency ldb c = none := by
        obtain ⟨s, hs, hbeq⟩ := List.contains_iff_exists_mem_beq.mp hc
        have : s = c := by
          have hcs : c = s := by simpa using hbeq
          exact hcs.symm
        exact this ▸ hseen s hs
      rw [this]
      exact ih seen hseen
    · rw [if_neg hc]
      cases hlk : getLatestRowForCurrency ldb c with
      | some r => rfl
      | none =>
        exact ih (c :: seen) (by
          intro s hs
          rcases List.mem_cons.mp hs with h1 | h2
          · exact h1 ▸ hlk
          · exact hseen s h2)

/-- C6: when no entity-specific rate covers a currency, the legacy fallback
tries the code as-is, then the code with "IN" appended (3-letter codes
only), then "USDIN", then "USD", and uses the first code for which a
legacy row exists; the row chosen for a code is the most recent one by
timestamp (nulls as 1900-01-01) descending then row id descending. -/
theorem legacy_fallback_contract (ldb : List FxMasterRow) (curr : String)
    (r : FxMasterRow) :
    (getLatestRowForCurrency ldb curr = some r →
      firstLegacyHitLoop ldb [] (legacyVariants curr) = some (curr, r)) ∧
    (getLatestRowForCurrency ldb curr = none → curr.length = 3 →
      getLatestRowForCurrency ldb (curr ++ "IN") = some r →
      firstLegacyHitLoop ldb [] (legacyVariants curr) =
        some (curr ++ "IN", r)) ∧
    (getLatestRowForCurrency ldb curr = none →
      (curr.length = 3 → getLatestRowForCurrency ldb (curr ++ "IN") = none) →
      getLatestRowForCurrency ldb "USDIN" = some r →
      firstLegacyHitLoop ldb [] (legacyVariants curr) = some ("USDIN", r)) ∧
    (getLatestRowForCurrency ldb curr = none →
      (curr.length = 3 → getLatestRowForCurrency ldb (curr ++ "IN") = none) →
      getLatestRowForCurrency ldb "USDIN" = none →
      getLatestRowForCurrency ldb "USD" = some r →
      firstLegacyHitLoop ldb [] (legacyVariants curr) = some ("USD", r)) ∧
    (getLatestRowForCurrency ldb curr = some r →
      r ∈ ldb ∧ r.currency = curr ∧
        ∀ x ∈ ldb, x.currency = curr →
          keyLt (fxSortKey r) (fxSortKey x) = false) := by
  have hplain := firstLegacyHitLoop_eq_plain ldb (legacyVariants curr) []
    (by intro s hs; cases hs)
  refine ⟨?_, ?_, ?_, ?_, fun h => getLatestRow_spec h⟩
  · intro h
    rw [hplain]
    unfold legacyVariants
    by_cases h3 : curr.length = 3 <;>
      simp [h3, firstHitPlain, h]
  · intro hn h3 hin
    rw [hplain]
    unfold legacyVariants
    simp [h3, firstHitPlain, hn, hin]
  · intro hn hin husdin
    rw [hplain]
    unfold legacyVariants
    by_cases h3 : curr.length = 3
    · simp [h3, firstHitPlain, hn, hin h3, husdin]
    · simp [h3, firstHitPlain, hn, husdin]
  · intro hn hin husdin husd
    rw [hplain]
    unfold legacyVariants
    by_cases h3 : curr.length = 3
    · simp [h3, firstHitPlain, hn, hin h3, husdin, husd]
    · simp [h3, firstHitPlain, hn, husdin, husd]

/-- C6 witness: with legacy rows only for "USDIN", the fallback for "EUR"
lands on "USDIN", and among two "USDIN" rows the one with the later
timestamp is chosen. -/
theorem legacy_fallback_contract_witness :
    firstLegacyHitLoop
      [{ fx_id := 1, currency := "USDIN", initial_rate := some 80,
         latest_rate := some 82, updated_at := some 10 },
       { fx_id := 2, currency := "USDIN", initial_rate := some 81,
         latest_rate := some 84, updated_at := some 20 }]
      [] (legacyVariants "EUR") =
      some ("USDIN",
        { fx_id := 2, currency := "USDIN", initial_rate := some 81,
          latest_rate := some 84, updated_at := some 20 }) :=
  (legacy_fallback_contract
      [{ fx_id := 1, currency := "USDIN", initial_rate := some 80,
         latest_rate := some 82, updated_at := some 10 },
       { fx_id := 2, currency := "USDIN", initial_rate := some 81,
         latest_rate := some 84, updated_at := some 20 }]
      "EUR"
      { fx_id := 2, currency := "USDIN", initial_rate := some 81,
        latest_rate := some 84, updated_at := some 20 }).2.2.1
    (by decide) (by decide) (by decide)

/-! ## Cache-construction lemmas and claim C5 -/

lemma resolve_exact {edb : List EntityFxRate} {e : ℤ} {c : String} {fy : ℤ}
    {r : EntityFxRate} (h : getEntityFyForexRate edb e c fy = some r) :
    resolveEntityFyRates edb e c fy = some (fy, r) := by
  unfold resolveEntityFyRates
  rw [h]

lemma resolve_next {edb : List EntityFxRate} {e : ℤ} {c : String} {fy : ℤ}
    {r : EntityFxRate} (h0 : getEntityFyForexRate edb e c fy = none)
    (h1 : getEntityFyForexRate edb e c (fy + 1) = some r) :
    resolveEntityFyRates edb e c fy = some (fy + 1, r) := by
  unfold resolveEntityFyRates
  rw [h0, h1]

lemma resolve_prev {edb : List EntityFxRate} {e : ℤ} {c : String} {fy : ℤ}
    {r : EntityFxRate} (h0 : getEntityFyForexRate edb e c fy = none)
    (h1 : getEntityFyForexRate edb e c (fy + 1) = none)
    (h2 : getEntityFyForexRate edb e c (fy - 1) = some r) :
    resolveEntityFyRates edb e c fy = some (fy - 1, r) := by
  unfold resolveEntityFyRates
  rw [h0, h1, h2]

/-- Whatever year the resolver lands on, the record it returns is exactly
the store's record for that year. -/
lemma resolve_sound {edb : List EntityFxRate} {e : ℤ} {c : String}
    {fy0 fy : ℤ} {r : EntityFxRate}
    (h : resolveEntityFyRates edb e c fy0 = some (fy, r)) :
    getEntityFyForexRate edb e c fy = some r := by
  unfold resolveEntityFyRates at h
  cases h0 : getEntityFyForexRate edb e c fy0 with
  | some r0 => rw [h0] at h; cases h; exact h0
  | none =>
    rw [h0] at h
    cases h1 : getEntityFyForexRate edb e c (fy0 + 1) with
    | some r1 => rw [h1] at h; cases h; exact h1
    | none =>
      rw [h1] at h
      cases h2 : getEntityFyForexRate edb e c (fy0 - 1) with
      | some r2 => rw [h2] at h; cases h; exact h2
      | none => rw [h2] at h; cases h

/-- Every entry of the cache under an entity key records exactly the
store's rates for that entity, currency and (resolved) year. -/
lemma cacheGet_entity_val {edb : List EntityFxRate} {ldb : List FxMasterRow}
    {rows : List FinalRow} {e : ℤ} {c : String} {fy : ℤ} {v : FxCacheEntry}
    (h : cacheGet (buildForexCache edb ldb rows) (CacheKey.entity e c fy) =
      some v) :
    ∃ r, getEntityFyForexRate edb e c fy = some r ∧ v = entityEntryValue r := by
  unfold cacheGet at h
  cases hf : List.find? (fun en => en.1 == CacheKey.entity e c fy)
      (buildForexCache edb ldb rows) with
  | none => rw [hf] at h; cases h
  | some pair =>
    rw [hf] at h
    cases h
    have hkey : pair.1 = CacheKey.entity e c fy := by
      have := List.find?_some hf
      simpa using this
    have hmem := List.mem_of_find?_eq_some hf
    unfold buildForexCache at hmem
    rw [List.mem_append] at hmem
    rcases hmem with hent | hleg
    · rw [List.mem_filterMap] at hent
      obtain ⟨t, -, hce⟩ := hent
      unfold entityCacheEntry at hce
      cases hres : resolveEntityFyRates edb t.1 t.2.1 t.2.2 with
      | none => rw [hres] at hce; cases hce
      | some p =>
        rw [hres] at hce
        cases hce
        have hk := hkey
        simp only [CacheKey.entity.injEq] at hk
        obtain ⟨he, hc, hfy⟩ := hk
        have := resolve_sound (by rw [hres] : resolveEntityFyRates edb
          t.1 t.2.1 t.2.2 = some (p.1, p.2))
        refine ⟨p.2, ?_, rfl⟩
        rw [← he, ← hc, ← hfy]
        exact this
    · rw [List.mem_filterMap] at hleg
      obtain ⟨cc, -, hce⟩ := hleg
      cases hbe : buildLegacyEntry ldb cc with
      | none => rw [hbe] at hce; cases hce
      | some w =>
        rw [hbe] at hce
        simp only [Option.map_some'] at hce
        cases hce
        cases hkey

/-- A batch triple whose resolution succeeds puts an entry under the
resolved year's key into the cache. -/
lemma cacheGet_entity_isSome {edb : List EntityFxRate}
    (ldb : List FxMasterRow) {rows : List FinalRow} {t : ℤ × String × ℤ}
    {fy : ℤ} {r : EntityFxRate} (ht : t ∈ batchTriples rows)
    (hres : resolveEntityFyRates edb t.1 t.2.1 t.2.2 = some (fy, r)) :
    (cacheGet (buildForexCache edb ldb rows)
      (CacheKey.entity t.1 t.2.1 fy)).isSome := by
  unfold cacheGet
  cases hf : List.find? (fun en => en.1 == CacheKey.entity t.1 t.2.1 fy)
      (buildForexCache edb ldb rows) with
  | some pair => rfl
  | none =>
    exfalso
    rw [List.find?_eq_none] at hf
    refine hf (CacheKey.entity t.1 t.2.1 fy, entityEntryValue r) ?_ (by simp)
    unfold buildForexCache
    rw [List.mem_append]
    left
    rw [List.mem_filterMap]
    refine ⟨t, ht, ?_⟩
    unfold entityCacheEntry
    rw [hres]

lemma cacheGet_entity_of_resolve {edb : List EntityFxRate}
    {ldb : List FxMasterRow} {rows : List FinalRow} {t : ℤ × String × ℤ}
    {fy : ℤ} {r : EntityFxRate} (ht : t ∈ batchTriples rows)
    (hres : resolveEntityFyRates edb t.1 t.2.1 t.2.2 = some (fy, r)) :
    cacheGet (buildForexCache edb ldb rows) (CacheKey.entity t.1 t.2.1 fy) =
      some (entityEntryValue r) := by
  have hs := cacheGet_entity_isSome ldb ht hres
  cases hv : cacheGet (buildForexCache edb ldb rows)
      (CacheKey.entity t.1 t.2.1 fy) with
  | none => rw [hv] at hs; cases hs
  | some v =>
    obtain ⟨r', hr', hval⟩ := cacheGet_entity_val hv
    have : getEntityFyForexRate edb t.1 t.2.1 fy = some r :=
      resolve_sound hres
    rw [this] at hr'
    cases hr'
    rw [hval]

/-- C5: for each batch triple the cache builder looks up the
entity-specific rate for the exact fiscal year first, retries with
year + 1, and only then with year − 1; the first lookup that returns a
record supplies the opening/closing rates cached for that triple (under
the resolved year's key). -/
theorem forex_cache_fy_lookup_order (edb : List EntityFxRate)
    (ldb : List FxMasterRow) (rows : List FinalRow) (e : ℤ) (c : String)
    (fy : ℤ) (hmem : (e, c, fy) ∈ batchTriples rows) :
    (∀ r, getEntityFyForexRate edb e c fy = some r →
      resolveEntityFyRates edb e c fy = some (fy, r) ∧
      cacheGet (buildForexCache edb ldb rows) (CacheKey.entity e c fy) =
        some (entityEntryValue r)) ∧
    (getEntityFyForexRate edb e c fy = none →
      ∀ r, getEntityFyForexRate edb e c (fy + 1) = some r →
      resolveEntityFyRates edb e c fy = some (fy + 1, r) ∧
      cacheGet (buildForexCache edb ldb rows)
        (CacheKey.entity e c (fy + 1)) = some (entityEntryValue r)) ∧
    (getEntityFyForexRate edb e c fy = none →
      getEntityFyForexRate edb e c (fy + 1) = none →
      ∀ r, getEntityFyForexRate edb e c (fy - 1) = some r →
      resolveEntityFyRates edb e c fy = some (fy - 1, r) ∧
      cacheGet (buildForexCache edb ldb rows)
        (CacheKey.entity e c (fy - 1)) = some (entityEntryValue r)) := by
  refine ⟨?_, ?_, ?_⟩
  · intro r h
    have hres := resolve_exact h
    exact ⟨hres, cacheGet_entity_of_resolve hmem hres⟩
  · intro h0 r h1
    have hres := resolve_next h0 h1
    exact ⟨hres, cacheGet_entity_of_resolve hmem hres⟩
  · intro h0 h1 r h2
    have hres := resolve_prev h0 h1 h2
    exact ⟨hres, cacheGet_entity_of_resolve hmem hres⟩

/-- C5 witness: a batch row labelled FY 2024 whose entity store only has a
record for FY 2025 resolves through the +1 retry, and the cache carries
that record under the 2025 key. -/
theorem forex_cache_fy_lookup_order_witness :
    resolveEntityFyRates
      [{ entity_id := 1, currency := "EUR", financial_year := 2025,
         opening_rate := some 80, closing_rate := some 84 }] 1 "EUR" 2024 =
      some (2025,
        { entity_id := 1, currency := "EUR", financial_year := 2025,
          opening_rate := some 80, closing_rate := some 84 }) ∧
    cacheGet
      (buildForexCache
        [{ entity_id := 1, currency := "EUR", financial_year := 2025,
           opening_rate := some 80, closing_rate := some 84 }] []
        [{ sl_no := 1, Particular := "Sales", entityCode := "E1",
           selectedMonth := "April", Month := "April", Year := some 2024,
           mainCategory := some "Profit and Loss", category1 := none,
           category2 := none, category3 := none, category4 := none,
           category5 := none, localCurrencyCode := "EUR",
           transactionAmount := some 10, Avg_Fx_Rt := none,
           transactionAmountUSD := none, entity_id := some 1,
           financial_year := some 2024 }])
      (CacheKey.entity 1 "EUR" 2025) =
      some (entityEntryValue
        { entity_id := 1, currency := "EUR", financial_year := 2025,
          opening_rate := some 80, closing_rate := some 84 }) := by
  have h := (forex_cache_fy_lookup_order
    [{ entity_id := 1, currency := "EUR", financial_year := 2025,
       opening_rate := some 80, closing_rate := some 84 }] []
    [{ sl_no := 1, Particular := "Sales", entityCode := "E1",
       selectedMonth := "April", Month := "April", Year := some 2024,
       mainCategory := some "Profit and Loss", category1 := none,
       category2 := none, category3 := none, category4 := none,
       category5 := none, localCurrencyCode := "EUR",
       transactionAmount := some 10, Avg_Fx_Rt := none,
       transactionAmountUSD := none, entity_id := some 1,
       financial_year := some 2024 }] 1 "EUR" 2024 (by decide)).2.1
    (by decide)
    { entity_id := 1, currency := "EUR", financial_year := 2025,
      opening_rate := some 80, closing_rate := some 84 } (by decide)
  exact ⟨h.1, h.2⟩

/-! ## Per-currency fallback lemmas and claim C10 -/

lemma cacheGet_legacy_none_of_found {edb : List EntityFxRate}
    (ldb : List FxMasterRow) {rows : List FinalRow} {c : String}
    (hc : c ∈ foundEntityRateCurrencies edb rows) :
    cacheGet (buildForexCache edb ldb rows) (CacheKey.legacy c) = none := by
  unfold cacheGet
  cases hf : List.find? (fun en => en.1 == CacheKey.legacy c)
      (buildForexCache edb ldb rows) with
  | none => rfl
  | some pair =>
    exfalso
    have hkey : pair.1 = CacheKey.legacy c := by
      simpa using List.find?_some hf
    have hmem := List.mem_of_find?_eq_some hf
    unfold buildForexCache at hmem
    rw [List.mem_append] at hmem
    rcases hmem with hent | hleg
    · rw [List.mem_filterMap] at hent
      obtain ⟨t, -, hce⟩ := hent
      unfold entityCacheEntry at hce
      cases hres : resolveEntityFyRates edb t.1 t.2.1 t.2.2 with
      | none => rw [hres] at hce; cases hce
      | some p => rw [hres] at hce; cases hce; cases hkey
    · rw [List.mem_filterMap] at hleg
      obtain ⟨cc, hccmem, hce⟩ := hleg
      cases hbe : buildLegacyEntry ldb cc with
      | none => rw [hbe] at hce; cases hce
      | some w =>
        rw [hbe] at hce
        simp only [Option.map_some'] at hce
        cases hce
        have hcc : cc = c := by simpa using hkey
        rw [List.mem_filter] at hccmem
        have hnc := hccmem.2
        rw [hcc] at hnc
        have hct : (foundEntityRateCurrencies edb rows).contains c = true := by
          rw [List.contains_iff_exists_mem_beq]
          exact ⟨c, hc, by simp⟩
        rw [hct] at hnc
        cases hnc

lemma lookupRowFx_none_of {edb : List EntityFxRate} {ldb : List FxMasterRow}
    {rows : List FinalRow} {r : FinalRow} {e : ℤ}
    (hid : truthyZ r.entity_id = some e)
    (hnone : ∀ g : ℤ,
      getEntityFyForexRate edb e (strUpper (strTrim r.localCurrencyCode)) g =
        none)
    (hleg : cacheGet (buildForexCache edb ldb rows)
      (CacheKey.legacy (strUpper (strTrim r.localCurrencyCode))) = none) :
    lookupRowFx (buildForexCache edb ldb rows) r = none := by
  have hent : ∀ g : ℤ, cacheGet (buildForexCache edb ldb rows)
      (CacheKey.entity e (strUpper (strTrim r.localCurrencyCode)) g) =
        none := by
    intro g
    cases hv : cacheGet (buildForexCache edb ldb rows)
        (CacheKey.entity e (strUpper (strTrim r.localCurrencyCode)) g) with
    | none => rfl
    | some v =>
      obtain ⟨r', hr', -⟩ := cacheGet_entity_val hv
      rw [hnone g] at hr'
      cases hr'
  unfold lookupRowFx
  rw [hid]
  cases hfy : rowFY r with
  | none => exact hleg
  | some fy =>
    simp only [hent fy, hent (fy + 1), hent (fy - 1)]
    exact hleg

lemma applyForexRow_of_lookup_none {cache : ForexCache} {r : FinalRow}
    (h : lookupRowFx cache r = none) : applyForexRow cache r = r := by
  unfold applyForexRow
  cases hb : blankO r.mainCategory with
  | true => rfl
  | false => rw [h]; rfl

lemma calcForexRow_of_lookup_none {cache : ForexCache} {r : FinalRow}
    (h : lookupRowFx cache r = none) : calcForexRow cache r = r := by
  unfold calcForexRow
  cases hb : blankO r.mainCategory with
  | true => rfl
  | false => rw [h]; rfl

/-- C10: the legacy fallback is decided per currency code alone. If any
entity in the batch has an entity-specific rate for a currency, no legacy
entry is built for that currency, so a row of a different entity with that
currency and no entity-specific rate of its own resolves no rate at all
and is left unchanged by both the in-memory and the saving FX passes. -/
theorem legacy_fallback_per_currency_only (edb : List EntityFxRate)
    (ldb : List FxMasterRow) (rows : List FinalRow) (r : FinalRow) (e : ℤ)
    (_hr : r ∈ rows)
    (hid : truthyZ r.entity_id = some e)
    (hnone : ∀ g : ℤ,
      getEntityFyForexRate edb e (strUpper (strTrim r.localCurrencyCode)) g =
        none)
    (hfound : strUpper (strTrim r.localCurrencyCode) ∈
      foundEntityRateCurrencies edb rows) :
    cacheGet (buildForexCache edb ldb rows)
      (CacheKey.legacy (strUpper (strTrim r.localCurrencyCode))) = none ∧
    applyForexRow (buildForexCache edb ldb rows) r = r ∧
    calcForexRow (buildForexCache edb ldb rows) r = r := by
  have hleg := cacheGet_legacy_none_of_found ldb hfound
  have hlk := lookupRowFx_none_of hid hnone hleg
  exact ⟨hleg, applyForexRow_of_lookup_none hlk,
    calcForexRow_of_lookup_none hlk⟩

/-- C10 witness: entity 1 has an EUR rate for FY 2024 while entity 2 does
not; in a batch with one row of each, entity 2's row keeps no rate even
though the legacy table has an EUR row. -/
theorem legacy_fallback_per_currency_only_witness :
    applyForexRow
      (buildForexCache
        [{ entity_id := 1, currency := "EUR", financial_year := 2024,
           opening_rate := some 80, closing_rate := some 84 }]
        [{ fx_id := 1, currency := "EUR", initial_rate := some 79,
           latest_rate := some 83, updated_at := some 5 }]
        [{ sl_no := 1, Particular := "Sales", entityCode := "E1",
           selectedMonth := "April", Month := "April", Year := some 2024,
           mainCategory := some "Profit and Loss", category1 := none,
           category2 := none, category3 := none, category4 := none,
           category5 := none, localCurrencyCode := "EUR",
           transactionAmount := some 10, Avg_Fx_Rt := none,
           transactionAmountUSD := none, entity_id := some 1,
           financial_year := some 2024 },
         { sl_no := 2, Particular := "Cash", entityCode := "E2",
           selectedMonth := "April", Month := "April", Year := some 2024,
           mainCategory := some "Balance Sheet", category1 := none,
           category2 := none, category3 := none, category4 := none,
           category5 := none, localCurrencyCode := "EUR",
           transactionAmount := some 10, Avg_Fx_Rt := none,
           transactionAmountUSD := none, entity_id := some 2,
           financial_year := some 2024 }])
      { sl_no := 2, Particular := "Cash", entityCode := "E2",
        selectedMonth := "April", Month := "April", Year := some 2024,
        mainCategory := some "Balance Sheet", category1 := none,
        category2 := none, category3 := none, category4 := none,
        category5 := none, localCurrencyCode := "EUR",
        transactionAmount := some 10, Avg_Fx_Rt := none,
        transactionAmountUSD := none, entity_id := some 2,
        financial_year := some 2024 } =
      { sl_no := 2, Particular := "Cash", entityCode := "E2",
        selectedMonth := "April", Month := "April", Year := some 2024,
        mainCategory := some "Balance Sheet", category1 := none,
        category2 := none, category3 := none, category4 := none,
        category5 := none, localCurrencyCode := "EUR",
        transactionAmount := some 10, Avg_Fx_Rt := none,
        transactionAmountUSD := none, entity_id := some 2,
        financial_year := some 2024 } :=
  (legacy_fallback_per_currency_only
    [{ entity_id := 1, currency := "EUR", financial_year := 2024,
       opening_rate := some 80, closing_rate := some 84 }]
    [{ fx_id := 1, currency := "EUR", initial_rate := some 79,
       latest_rate := some 83, updated_at := some 5 }]
    [{ sl_no := 1, Particular := "Sales", entityCode := "E1",
       selectedMonth := "April", Month := "April", Year := some 2024,
       mainCategory := some "Profit and Loss", category1 := none,
       category2 := none, category3 := none, category4 := none,
       category5 := none, localCurrencyCode := "EUR",
       transactionAmount := some 10, Avg_Fx_Rt := none,
       transactionAmountUSD := none, entity_id := some 1,
       financial_year := some 2024 },
     { sl_no := 2, Particular := "Cash", entityCode := "E2",
       selectedMonth := "April", Month := "April", Year := some 2024,
       mainCategory := some "Balance Sheet", category1 := none,
       category2 := none, category3 := none, category4 := none,
       category5 := none, localCurrencyCode := "EUR",
       transactionAmount := some 10, Avg_Fx_Rt := none,
       transactionAmountUSD := none, entity_id := some 2,
       financial_year := some 2024 }]
    { sl_no := 2, Particular := "Cash", entityCode := "E2",
      selectedMonth := "April", Month := "April", Year := some 2024,
      mainCategory := some "Balance Sheet", category1 := none,
      category2 := none, category3 := none, category4 := none,
      category5 := none, localCurrencyCode := "EUR",
      transactionAmount := some 10, Avg_Fx_Rt := none,
      transactionAmountUSD := none, entity_id := some 2,
      financial_year := some 2024 }
    2 (by decide) (by decide) (fun g => rfl) (by decide)).2.1

/-! ## FX-gating-invariant lemmas and claim C3 -/

lemma calcForexRow_blank {cache : ForexCache} {r : FinalRow}
    (hb : blankO r.mainCategory = true) : calcForexRow cache r = r := by
  unfold calcForexRow
  rw [hb]
  rfl

lemma calcForexRow_rate_mainCat {cache : ForexCache} {r : FinalRow}
    {fx : FxCacheEntry} {rate : ℚ}
    (hb : blankO r.mainCategory = false)
    (hlk : lookupRowFx cache r = some fx)
    (hr : computeFxRate (rowIsPL r) fx = some rate) :
    (calcForexRow cache r).mainCategory = r.mainCategory := by
  unfold calcForexRow
  rw [hb, hlk]
  simp only [hr]
  rfl

lemma calcForexRow_cases (cache : ForexCache) (r : FinalRow) :
    calcForexRow cache r = r ∨
      ((calcForexRow cache r).mainCategory = r.mainCategory ∧
        blankO r.mainCategory = false) := by
  cases hb : blankO r.mainCategory with
  | true => left; exact calcForexRow_blank hb
  | false =>
    cases hlk : lookupRowFx cache r with
    | none => left; exact calcForexRow_of_lookup_none hlk
    | some fx =>
      cases hcr : computeFxRate (rowIsPL r) fx with
      | none => left; exact calcForexRow_skip hlk hcr
      | some rate => right; exact ⟨calcForexRow_rate_mainCat hb hlk hcr, rfl⟩

lemma rowFxGateB_of_nonblank {r : FinalRow}
    (h : nonblankO r.mainCategory = true) : rowFxGateB r = true := by
  unfold rowFxGateB
  rw [h, Bool.or_true]

lemma calcForexRow_gate {cache : ForexCache} {r : FinalRow}
    (h : rowFxGateB r = true) : rowFxGateB (calcForexRow cache r) = true := by
  rcases calcForexRow_cases cache r with he | ⟨hmc, hb⟩
  · rw [he]; exact h
  · apply rowFxGateB_of_nonblank
    rw [hmc]
    unfold nonblankO
    rw [hb]
    rfl

lemma recalcBSRow_gate {lr : ℚ} {matching : List String} {r : FinalRow}
    (h : rowFxGateB r = true) :
    rowFxGateB (recalcBSRow lr matching r) = true := by
  unfold recalcBSRow
  cases hc : (nonblankO r.mainCategory && r.transactionAmount.isSome
      && rowCurrencyMatches matching r && !rowPlExact r) with
  | false => simpa using h
  | true =>
    simp only [if_pos]
    apply rowFxGateB_of_nonblank
    simp only [Bool.and_eq_true] at hc
    exact hc.1.1.1

lemma recalcPLRow_gate {avg : ℚ} {matching : List String} {r : FinalRow}
    (h : rowFxGateB r = true) :
    rowFxGateB (recalcPLRow avg matching r) = true := by
  unfold recalcPLRow
  cases hc : (nonblankO r.mainCategory && r.transactionAmount.isSome
      && rowCurrencyMatches matching r && rowPlExact r) with
  | false => simpa using h
  | true =>
    simp only [if_pos]
    apply rowFxGateB_of_nonblank
    simp only [Bool.and_eq_true] at hc
    exact hc.1.1.1

lemma tableGate_map {f : FinalRow → FinalRow}
    (hf : ∀ r, rowFxGateB r = true → rowFxGateB (f r) = true)
    {table : List FinalRow} (h : tableFxGateB table = true) :
    tableFxGateB (table.map f) = true := by
  unfold tableFxGateB at *
  rw [List.all_eq_true] at *
  intro x hx
  rw [List.mem_map] at hx
  obtain ⟨a, ha, rfl⟩ := hx
  exact hf a (h a ha)

lemma tableGate_mapIf {p : FinalRow → Bool} {g : FinalRow → FinalRow}
    (hg : ∀ r, rowFxGateB r = true → rowFxGateB (g r) = true)
    {table : List FinalRow} (h : tableFxGateB table = true) :
    tableFxGateB (table.map (fun r => if p r then g r else r)) = true := by
  apply tableGate_map ?_ h
  intro r hr
  show rowFxGateB (if p r then g r else r) = true
  cases hp : p r with
  | true => simpa using hg r hr
  | false => simpa using hr

lemma pyOrNoneS_nonblank {s : Option String} (h : nonblankO s = true) :
    nonblankO (pyOrNoneS s) = true := by
  cases s with
  | none => exact absurd h (by decide)
  | some v =>
    show nonblankO (if (v == "") = true then none else some v) = true
    cases hv : (v == "") with
    | false => simpa using h
    | true =>
      have hv' : v = "" := by simpa using hv
      rw [hv'] at h
      exact absurd h (by decide)

lemma updateByParticularCats_gate {p : String} {m : Mapping}
    (hm : nonblankO m.mainCategory = true) {table : List FinalRow}
    (h : tableFxGateB table = true) :
    tableFxGateB (updateByParticularCats p m table) = true := by
  unfold updateByParticularCats
  apply tableGate_map ?_ h
  intro r hr
  unfold updCatsRow
  cases hp : (normKey r.Particular == normKey p) with
  | false => simpa using hr
  | true =>
    simpa using rowFxGateB_of_nonblank (pyOrNoneS_nonblank hm)

/-- A categorized, amount-less, unrated row used to show the converse of
the gating invariant need not hold. -/
def categorizedUnratedRow : FinalRow :=
  { sl_no := 1, Particular := "Cash", entityCode := "E1",
    selectedMonth := "April", Month := "April", Year := some 2024,
    mainCategory := some "Balance Sheet", category1 := none,
    category2 := none, category3 := none, category4 := none,
    category5 := none, localCurrencyCode := "EUR",
    transactionAmount := none, Avg_Fx_Rt := none,
    transactionAmountUSD := none, entity_id := none,
    financial_year := none }

/-- C3: after every FX-rate-writing operation — the ingestion FX pass, the
batch calculate-and-save, the recalculation endpoint, and the
per-particular category update (whose applied mapping always carries a
non-blank main category, enforced by every `code_master` write path) — a
row with a non-null `Avg_Fx_Rt` has a non-null, non-blank `mainCategory`;
the converse need not hold: a categorized row may still carry no rate. -/
theorem fx_gating_invariant (edb : List EntityFxRate)
    (ldb : List FxMasterRow) :
    (∀ (cache : ForexCache) (table : List FinalRow),
      tableFxGateB table = true →
      tableFxGateB (calcAndSaveForexRates cache table) = true) ∧
    (∀ (entCode month : String) (year : ℤ) (table : List FinalRow),
      tableFxGateB table = true →
      tableFxGateB (ingestionFxPass edb ldb entCode month year table) =
        true) ∧
    (∀ (currency : String) (table : List FinalRow),
      tableFxGateB table = true →
      tableFxGateB (recalcAvgFxRate ldb currency table) = true) ∧
    (∀ (p : String) (m : Mapping) (table : List FinalRow),
      nonblankO m.mainCategory = true →
      tableFxGateB table = true →
      tableFxGateB (updateByParticular edb ldb p m table) = true) ∧
    (∃ r : FinalRow, nonblankO r.mainCategory = true ∧
      rowFxGateB r = true ∧ (calcForexRow [] r).Avg_Fx_Rt = none) := by
  refine ⟨?_, ?_, ?_, ?_, ?_⟩
  · intro cache table h
    exact tableGate_map (fun r hr => calcForexRow_gate hr) h
  · intro entCode month year table h
    unfold ingestionFxPass
    exact tableGate_mapIf (fun r hr => calcForexRow_gate hr) h
  · intro currency table h
    unfold recalcAvgFxRate
    cases getLatestRowForCurrency ldb currency with
    | none => exact h
    | some fxrow =>
      obtain ⟨fid, fcur, fir, flr, fts⟩ := fxrow
      cases fir with
      | none =>
        cases flr with
        | none => exact h
        | some lr => exact tableGate_map (fun r hr => recalcBSRow_gate hr) h
      | some ir =>
        cases flr with
        | none => exact h
        | some lr =>
          exact tableGate_map (fun r hr => recalcPLRow_gate hr)
            (tableGate_map (fun r hr => recalcBSRow_gate hr) h)
  · intro p m table hm h
    unfold updateByParticular
    exact tableGate_mapIf (fun r hr => calcForexRow_gate hr)
      (updateByParticularCats_gate hm h)
  · exact ⟨categorizedUnratedRow, by decide, by decide, by decide⟩

/-- A `code_master` mapping with the non-blank main category every write
path of `code_master.py` enforces. -/
def balanceSheetMapping : Mapping :=
  { mainCategory := some "Balance Sheet", category1 := some "Assets",
    category2 := none, category3 := none, category4 := none,
    category5 := none }

/-- C3 witness: the gating invariant holds after each operation on a
concrete one-row table that satisfies it. -/
theorem fx_gating_invariant_witness :
    tableFxGateB (calcAndSaveForexRates [] [categorizedUnratedRow]) = true ∧
    tableFxGateB
      (ingestionFxPass [] [] "E1" "April" 2024 [categorizedUnratedRow]) =
      true ∧
    tableFxGateB (recalcAvgFxRate [] "USDIN" [categorizedUnratedRow]) =
      true ∧
    tableFxGateB
      (updateByParticular [] [] "Cash" balanceSheetMapping
        [categorizedUnratedRow]) = true :=
  ⟨(fx_gating_invariant [] []).1 [] [categorizedUnratedRow] (by decide),
   (fx_gating_invariant [] []).2.1 "E1" "April" 2024 [categorizedUnratedRow]
     (by decide),
   (fx_gating_invariant [] []).2.2.1 "USDIN" [categorizedUnratedRow]
     (by decide),
   (fx_gating_invariant [] []).2.2.2.1 "Cash" balanceSheetMapping
     [categorizedUnratedRow] (by decide) (by decide)⟩

/-! ## Upload-gate lemmas and claim C9 -/

lemma checkIfPreviousFy_some {fys : List FYPeriod} {d : Date} {s : String}
    (h : checkIfPreviousFy fys d = some s) : s = suggestedFy d := by
  unfold checkIfPreviousFy at h
  cases he : earliestActiveFy fys with
  | none => rw [he] at h; cases h; rfl
  | some p =>
    rw [he] at h
    replace h : (if dateLt d p.start_date then some (suggestedFy d)
        else none) = some s := h
    by_cases hlt : dateLt d p.start_date = true
    · rw [if_pos hlt] at h; cases h; rfl
    · rw [if_neg hlt] at h; cases h

/-- C9 counterexample: with one configured active period 2024-25 and
today's date (2026-06-01) outside every configured period, an upload dated
2024-05-01 is accepted even though no currently active fiscal year exists —
contradicting "data is accepted only when the target period is the
currently active fiscal year". -/
theorem upload_accept_without_current_fy :
    uploadFyDecision
      [{ id := 1, financial_year := "2024-25",
         start_date := { year := 2024, month := 4, day := 1 },
         end_date := { year := 2025, month := 3, day := 31 },
         is_active := true }]
      { year := 2026, month := 6, day := 1 }
      { year := 2024, month := 5, day := 1 } =
      UploadDecision.accepted "2024-25" ∧
    getCurrentFinancialYear
      [{ id := 1, financial_year := "2024-25",
         start_date := { year := 2024, month := 4, day := 1 },
         end_date := { year := 2025, month := 3, day := 31 },
         is_active := true }]
      { year := 2026, month := 6, day := 1 } = none := by
  constructor <;> decide

/-- C9 (amended): before any ledger rows are written, an upload dated
outside every active configured period is rejected with a machine-readable
code — the previous-FY code carrying the suggested period label exactly
when the date precedes all configured periods (or none are configured),
the plain validation-failure code otherwise; an upload in a configured
period different from the current fiscal year is rejected with the
not-current code when a current fiscal year exists; an upload is accepted
only when its target period's label equals the current fiscal year's, or
when no current fiscal year exists (today outside every active period), in
which case the current-year check is skipped. -/
theorem upload_period_gate (fys : List FYPeriod) (today d : Date)
    (writes : List FinalRow → List FinalRow) (table : List FinalRow) :
    (validateDateAgainstFyMaster fys d = none →
      uploadFyDecision fys today d =
          UploadDecision.previousFyNotConfigured (suggestedFy d) ∨
        uploadFyDecision fys today d = UploadDecision.fyValidationFailed) ∧
    (validateDateAgainstFyMaster fys d = none →
      (earliestActiveFy fys = none ∨
        (∃ p, earliestActiveFy fys = some p ∧ dateLt d p.start_date = true)) →
      uploadFyDecision fys today d =
        UploadDecision.previousFyNotConfigured (suggestedFy d)) ∧
    (∀ p cur, validateDateAgainstFyMaster fys d = some p →
      getCurrentFinancialYear fys today = some cur →
      p.financial_year ≠ cur.financial_year →
      uploadFyDecision fys today d =
        UploadDecision.notCurrentFy p.financial_year cur.financial_year) ∧
    (∀ fy, uploadFyDecision fys today d = UploadDecision.accepted fy →
      ∃ p, validateDateAgainstFyMaster fys d = some p ∧
        p.financial_year = fy ∧
        ∀ cur, getCurrentFinancialYear fys today = some cur →
          cur.financial_year = fy) ∧
    ((∀ fy, uploadFyDecision fys today d ≠ UploadDecision.accepted fy) →
      (uploadPipeline fys today d writes table).2 = table) := by
  refine ⟨?_, ?_, ?_, ?_, ?_⟩
  · intro hval
    cases hprev : checkIfPreviousFy fys d with
    | none => right; simp only [uploadFyDecision, hval, hprev]
    | some s =>
      left
      rw [checkIfPreviousFy_some hprev] at hprev
      simp only [uploadFyDecision, hval, hprev]
  · intro hval hpre
    have hprev : checkIfPreviousFy fys d = some (suggestedFy d) := by
      rcases hpre with he | ⟨p, hp, hlt⟩
      · simp [checkIfPreviousFy, he]
      · simp [checkIfPreviousFy, hp, hlt]
    simp only [uploadFyDecision, hval, hprev]
  · intro p cur hval hcur hne
    have hbeq : (p.financial_year == cur.financial_year) = false :=
      beq_eq_false_iff_ne.mpr hne
    simp [uploadFyDecision, hval, hcur, hbeq]
  · intro fy hacc
    cases hval : validateDateAgainstFyMaster fys d with
    | none =>
      cases hprev : checkIfPreviousFy fys d with
      | none => simp [uploadFyDecision, hval, hprev] at hacc
      | some s => simp [uploadFyDecision, hval, hprev] at hacc
    | some p =>
      cases hcur : getCurrentFinancialYear fys today with
      | none =>
        simp only [uploadFyDecision, hval, hcur] at hacc
        injection hacc with hfy
        refine ⟨p, rfl, hfy, ?_⟩
        intro cur hcur'
        cases hcur'
      | some cur =>
        cases hbeq : (p.financial_year == cur.financial_year) with
        | false => simp [uploadFyDecision, hval, hcur, hbeq] at hacc
        | true =>
          simp [uploadFyDecision, hval, hcur, hbeq] at hacc
          refine ⟨p, rfl, hacc, ?_⟩
          intro cur' hcur'
          cases hcur'
          rw [← hacc]
          exact (eq_of_beq hbeq).symm
  · intro hna
    unfold uploadPipeline
    cases hdec : uploadFyDecision fys today d with
    | accepted fy => exact absurd hdec (hna fy)
    | previousFyNotConfigured s => rfl
    | fyValidationFailed => rfl
    | notCurrentFy a b => rfl

/-- The configured active period 2024-25. -/
def fyPeriod2425 : FYPeriod :=
  { id := 1, financial_year := "2024-25",
    start_date := { year := 2024, month := 4, day := 1 },
    end_date := { year := 2025, month := 3, day := 31 },
    is_active := true }

/-- The configured active period 2025-26. -/
def fyPeriod2526 : FYPeriod :=
  { id := 2, financial_year := "2025-26",
    start_date := { year := 2025, month := 4, day := 1 },
    end_date := { year := 2026, month := 3, day := 31 },
    is_active := true }

/-- C9 witness: with periods 2024-25 and 2025-26 configured and today in
2025-26, an upload dated 2024-05-01 is rejected with the not-current code,
and an upload dated 2023-05-01 (before all periods) is rejected with the
previous-FY code carrying the suggested label. -/
theorem upload_period_gate_witness :
    uploadFyDecision [fyPeriod2425, fyPeriod2526]
      { year := 2025, month := 6, day := 1 }
      { year := 2024, month := 5, day := 1 } =
      UploadDecision.notCurrentFy "2024-25" "2025-26" ∧
    uploadFyDecision [fyPeriod2425, fyPeriod2526]
      { year := 2025, month := 6, day := 1 }
      { year := 2023, month := 5, day := 1 } =
      UploadDecision.previousFyNotConfigured
        (suggestedFy { year := 2023, month := 5, day := 1 }) := by
  constructor
  · exact (upload_period_gate [fyPeriod2425, fyPeriod2526]
      { year := 2025, month := 6, day := 1 }
      { year := 2024, month := 5, day := 1 } id []).2.2.1
      fyPeriod2425 fyPeriod2526 (by decide) (by decide) (by decide)
  · exact (upload_period_gate [fyPeriod2425, fyPeriod2526]
      { year := 2025, month := 6, day := 1 }
      { year := 2023, month := 5, day := 1 } id []).2.1 (by decide)
      (Or.inr ⟨fyPeriod2425, by decide, by decide⟩)

end Consolidation
